import Mathlib

/-!
# D-BUS system-dependent layer (`dbus/dbus-sysdeps.c`)

A shallow embedding of the credential matching rule, the socket set-up
functions and the process-spawning code of `dbus-sysdeps.c`, with the
properties of the specification stated and settled over it.

Conventions of the embedding:

* a C `int` is an `Int`; a `size_t` is a `Nat` reduced modulo `2 ^ size_t_bits`
  after every operation;
* system calls are answered by the environment: each function takes the
  outcomes of the calls it makes and returns, next to its C result, the list
  of calls it made (its trace).
-/

namespace DBus

/-! ## Credentials -/

/-- The `DBusCredentials` struct: process, user and group id, `-1` when unknown. -/
structure DBusCredentials where
  pid : Int
  uid : Int
  gid : Int
  deriving DecidableEq, Repr

/-- Embedding of `_dbus_credentials_match` (dbus-sysdeps.c:1410). -/
def _dbus_credentials_match (expected_credentials provided_credentials : DBusCredentials) : Bool :=
  if provided_credentials.uid < 0 then
    false
  else if expected_credentials.uid < 0 then
    false
  else if provided_credentials.uid = 0 then
    true
  else if provided_credentials.uid = expected_credentials.uid then
    true
  else
    false

/-! ## Integer conversions and errno -/

/-- The size of an `int` in bytes, `sizeof (int)`. -/
def sizeof_int : Nat := 4

/-- Conversion of an integer value to `size_t` (an unsigned type of
`size_t_bits` bits): reduction modulo `2 ^ size_t_bits`. -/
def to_size_t (size_t_bits : Nat) (v : Int) : Nat :=
  (v % ((2 : Int) ^ size_t_bits)).toNat

/-- The cast `(int) v` of a `size_t` value: the low 32 bits, read as two's
complement. -/
def to_int (v : Nat) : Int :=
  if v % 2 ^ 32 < 2 ^ 31 then ((v % 2 ^ 32 : Nat) : Int) else ((v % 2 ^ 32 : Nat) : Int) - 2 ^ 32

/-- The bytes of an `int` in memory (little-endian two's complement), as
`write (fd, &msg, sizeof (msg))` sends them. -/
def int_bytes (v : Int) : List Nat :=
  let u := (v % 2 ^ 32).toNat
  [u % 256, u / 256 % 256, u / 65536 % 256, u / 16777216 % 256]

/-- `EPERM` of `<errno.h>` (value on Linux). -/
def EPERM : Int := 1
/-- `ENOENT` of `<errno.h>` (value on Linux). -/
def ENOENT : Int := 2
/-- `EINTR` of `<errno.h>` (value on Linux). -/
def EINTR : Int := 4
/-- `EIO` of `<errno.h>` (value on Linux). -/
def EIO : Int := 5
/-- `EBADF` of `<errno.h>` (value on Linux). -/
def EBADF : Int := 9
/-- `ECHILD` of `<errno.h>` (value on Linux). -/
def ECHILD : Int := 10
/-- `EAGAIN` of `<errno.h>` (value on Linux). -/
def EAGAIN : Int := 11
/-- `ENOMEM` of `<errno.h>` (value on Linux). -/
def ENOMEM : Int := 12
/-- `EACCES` of `<errno.h>` (value on Linux). -/
def EACCES : Int := 13
/-- `EFAULT` of `<errno.h>` (value on Linux). -/
def EFAULT : Int := 14
/-- `EEXIST` of `<errno.h>` (value on Linux). -/
def EEXIST : Int := 17
/-- `EINVAL` of `<errno.h>` (value on Linux). -/
def EINVAL : Int := 22
/-- `ENFILE` of `<errno.h>` (value on Linux). -/
def ENFILE : Int := 23
/-- `EMFILE` of `<errno.h>` (value on Linux). -/
def EMFILE : Int := 24
/-- `ENOTSOCK` of `<errno.h>` (value on Linux). -/
def ENOTSOCK : Int := 88
/-- `EPROTONOSUPPORT` of `<errno.h>` (value on Linux). -/
def EPROTONOSUPPORT : Int := 93
/-- `EAFNOSUPPORT` of `<errno.h>` (value on Linux). -/
def EAFNOSUPPORT : Int := 97
/-- `EADDRINUSE` of `<errno.h>` (value on Linux). -/
def EADDRINUSE : Int := 98
/-- `ENETUNREACH` of `<errno.h>` (value on Linux). -/
def ENETUNREACH : Int := 101
/-- `ENOBUFS` of `<errno.h>` (value on Linux). -/
def ENOBUFS : Int := 105
/-- `EISCONN` of `<errno.h>` (value on Linux). -/
def EISCONN : Int := 106
/-- `ETIMEDOUT` of `<errno.h>` (value on Linux). -/
def ETIMEDOUT : Int := 110
/-- `ECONNREFUSED` of `<errno.h>` (value on Linux). -/
def ECONNREFUSED : Int := 111

/-- The outcome of one system call: the value it returned and the value of
`errno` after it. -/
structure SysResult where
  ret : Int
  errno : Int
  deriving DecidableEq, Repr

/-- The outcome of one call of `read`: the value returned, `errno` after the
call, and the bytes it stored at the address it was given. -/
structure ReadResult where
  ret : Int
  errno : Int
  data : List Nat
  deriving DecidableEq, Repr

/-! ## DBusError -/

/-- The error names used by the spawning code. -/
inductive ErrorName where
  | DBUS_ERROR_SPAWN_FAILED
  | DBUS_ERROR_SPAWN_FORK_FAILED
  deriving DecidableEq, Repr

/-- An argument of the printf-style message of `dbus_set_error`. -/
inductive FormatArg where
  /-- The string `_dbus_errno_to_string (errnum)`. -/
  | errno_to_string (errnum : Int)
  /-- A C string. -/
  | str (s : String)
  deriving DecidableEq, Repr

/-- A set `DBusError`: its name and its message (format and arguments). -/
structure DBusError where
  name : ErrorName
  format : String
  args : List FormatArg
  deriving DecidableEq, Repr

/-- The effect of `dbus_set_error (error, name, format, ...)` on `error`. -/
def dbus_set_error (name : ErrorName) (format : String) (args : List FormatArg) :
    Option DBusError :=
  some ⟨name, format, args⟩

/-! ## Spawning: the calls made -/

/-- The calls `_dbus_spawn_async` and its helpers make, in the order made. -/
inductive Syscall where
  | pipe (res : SysResult) (p0 p1 : Int)
  | fd_set_close_on_exec (fd : Int)
  | fork (res : SysResult)
  | signal_sigpipe_dfl
  | close (fd : Int)
  | waitpid (pid : Int) (res : SysResult)
  | warn (msg : String)
  | read (fd : Int) (offset count : Nat) (ret : Int)
  | write (fd : Int) (bytes : List Nat)
  | child_setup
  | execv (path : String) (res : SysResult)
  | exit (status : Int)
  deriving DecidableEq, Repr

/-- Embedding of `close_and_invalidate` (dbus-sysdeps.c:2398): the new value of
`*fd` and the calls made. Its return value is discarded by every caller. -/
def close_and_invalidate (fd : Int) : Int × List Syscall :=
  if fd < 0 then
    (fd, [])
  else
    (-1, [Syscall.close fd])

/-- The stage tags `CHILD_CHDIR_FAILED`, `CHILD_EXEC_FAILED`, `CHILD_DUP2_FAILED`,
`CHILD_FORK_FAILED` of the anonymous enum (dbus-sysdeps.c:2434). -/
def CHILD_CHDIR_FAILED : Int := 0
/-- Stage tag of a failed `execv`. -/
def CHILD_EXEC_FAILED : Int := 1
/-- Stage tag of a failed `dup2`. -/
def CHILD_DUP2_FAILED : Int := 2
/-- Stage tag of a failed second `fork`. -/
def CHILD_FORK_FAILED : Int := 3

/-- Embedding of `write_err_and_exit` (dbus-sysdeps.c:2442), `errno` being the
value of `errno` on entry. -/
def write_err_and_exit (fd : Int) (msg : Int) (errno : Int) : List Syscall :=
  [Syscall.write fd (int_bytes msg), Syscall.write fd (int_bytes errno), Syscall.exit 1]

/-- The result of `read_ints`: its return value, the buffer, `*n_ints_read`
(`none` when it was not stored), the error, and the `read` calls made. -/
structure ReadInts where
  ret : Bool
  buf : List Nat
  n_ints_read : Option Int
  error : Option DBusError
  calls : List Syscall
  deriving DecidableEq, Repr

/-- The buffer after `data` was stored at byte offset `offset`. -/
def store_bytes (buf : List Nat) (offset : Nat) (data : List Nat) : List Nat :=
  buf.take offset ++ data ++ buf.drop (offset + data.length)

/-- The exit of the loop of `read_ints` by `break`: `*n_ints_read` is stored
and TRUE returned. -/
def read_ints_done (bytes : Nat) (buf : List Nat) (calls : List Syscall) : ReadInts :=
  { ret := true, buf := buf, n_ints_read := some (to_int (bytes / sizeof_int)),
    error := none, calls := calls }

/-- Embedding of the loop of `read_ints` (dbus-sysdeps.c:2453). The list holds
the outcomes of the successive `read` calls; once it is used up `read` returns
0 (end of file). `bytes` and `chunk` are `size_t`, so `chunk < 0` is the
comparison of an unsigned value. `goto again` repeats the `read` with
`bytes` unchanged, which is the loop entered again at the same `bytes`. -/
def read_ints_loop (size_t_bits : Nat) (fd : Int) (n_ints_in_buf : Int) :
    List ReadResult → Nat → List Nat → ReadInts
  | [], bytes, buf =>
    if bytes ≥ sizeof_int * 2 then
      read_ints_done bytes buf []
    else
      read_ints_done bytes buf
        [Syscall.read fd bytes (to_size_t size_t_bits (sizeof_int * n_ints_in_buf - bytes)) 0]
  | r :: rs, bytes, buf =>
    if bytes ≥ sizeof_int * 2 then
      read_ints_done bytes buf []
    else
      let count : Nat := to_size_t size_t_bits (sizeof_int * n_ints_in_buf - bytes)
      let chunk : Nat := to_size_t size_t_bits r.ret
      let call := Syscall.read fd bytes count r.ret
      let buf' := store_bytes buf bytes r.data
      if chunk < 0 ∧ r.errno = EINTR then
        let res := read_ints_loop size_t_bits fd n_ints_in_buf rs bytes buf'
        { res with calls := call :: res.calls }
      else if chunk < 0 then
        { ret := false, buf := buf', n_ints_read := none,
          error := dbus_set_error ErrorName.DBUS_ERROR_SPAWN_FAILED
            "Failed to read from child pipe (%s)" [FormatArg.errno_to_string r.errno],
          calls := [call] }
      else if chunk = 0 then
        read_ints_done bytes buf' [call]
      else
        let res := read_ints_loop size_t_bits fd n_ints_in_buf rs
          ((bytes + chunk) % 2 ^ size_t_bits) buf'
        { res with calls := call :: res.calls }

/-- Embedding of `read_ints`: `bytes` starts at 0. -/
def read_ints (size_t_bits : Nat) (fd : Int) (buf : List Nat) (n_ints_in_buf : Int)
    (reads : List ReadResult) : ReadInts :=
  read_ints_loop size_t_bits fd n_ints_in_buf reads 0 buf

/-! ## Spawning: `_dbus_spawn_async` -/

/-- Embedding of the `waitpid` loops of `_dbus_spawn_async` (labels `wait_again`,
dbus-sysdeps.c:2621, and `wait_failed`, dbus-sysdeps.c:2668, which differ only in
the status pointer): the calls made and the outcomes left for later calls. The
list holds the outcomes of the successive `waitpid` calls; once it is used up
there is no child left and `waitpid` fails with `ECHILD`. -/
def wait_again (pid : Int) : List SysResult → List Syscall × List SysResult
  | [] => ([Syscall.waitpid pid ⟨-1, ECHILD⟩], [])
  | r :: rs =>
    if r.ret < 0 then
      if r.errno = EINTR then
        (Syscall.waitpid pid r :: (wait_again pid rs).1, (wait_again pid rs).2)
      else if r.errno = ECHILD then
        ([Syscall.waitpid pid r], rs)
      else
        ([Syscall.waitpid pid r,
          Syscall.warn "waitpid() should not fail in '_dbus_spawn_async'"], rs)
    else
      ([Syscall.waitpid pid r], rs)

/-- What the environment answers to the calls of `_dbus_spawn_async`. -/
structure SpawnEnv where
  /-- Outcome of `pipe ()`. -/
  pipe : SysResult
  /-- The descriptors a successful `pipe ()` stores: read end, write end. -/
  p0 : Int
  p1 : Int
  /-- Outcome of the first `fork ()`: negative, 0 in the child, the child's pid
  in the caller. -/
  fork : SysResult
  /-- Outcomes of the successive `waitpid` calls of the caller. -/
  waits : List SysResult
  /-- Outcomes of the successive `read` calls of the caller on the pipe. -/
  reads : List ReadResult
  /-- Outcome of the second `fork ()`, made in the child. -/
  grandchild_fork : SysResult
  /-- `errno` of a failed `execv`; `none` when the program was started. -/
  execv_errno : Option Int
  deriving DecidableEq, Repr

/-- How a call of `_dbus_spawn_async` ends in the process that runs it. -/
inductive SpawnOutcome where
  /-- It returned this value to its caller. -/
  | returned (ret : Bool)
  /-- The process called `_exit (status)`. -/
  | exited (status : Int)
  /-- The process image was replaced by `execv`. -/
  | exec
  deriving DecidableEq, Repr

/-- The result of `_dbus_spawn_async`: how it ended, the error, the final value
of `child_err_report_pipe`, and the calls made. -/
structure SpawnResult where
  outcome : SpawnOutcome
  error : Option DBusError
  child_err_report_pipe : Int × Int
  trace : List Syscall
  deriving DecidableEq, Repr

/-- Embedding of `make_pipe` (dbus-sysdeps.c:2414): return value, error, calls. -/
def make_pipe (pipe : SysResult) (p0 p1 : Int) : Bool × Option DBusError × List Syscall :=
  if pipe.ret < 0 then
    (false,
      dbus_set_error ErrorName.DBUS_ERROR_SPAWN_FAILED
        "Failed to create pipe for communicating with child process (%s)"
        [FormatArg.errno_to_string pipe.errno],
      [Syscall.pipe pipe p0 p1])
  else
    (true, none,
      [Syscall.pipe pipe p0 p1, Syscall.fd_set_close_on_exec p0,
        Syscall.fd_set_close_on_exec p1])

/-- Embedding of `do_exec` (dbus-sysdeps.c:2500), without the descriptor check
compiled under `DBUS_BUILD_TESTS` only. -/
def do_exec (child_err_report_fd : Int) (argv : List String) (child_setup : Bool)
    (execv_errno : Option Int) : SpawnOutcome × List Syscall :=
  let setup := if child_setup then [Syscall.child_setup] else []
  match execv_errno with
  | none => (SpawnOutcome.exec, setup ++ [Syscall.execv (argv.headD "") ⟨0, 0⟩])
  | some e =>
    (SpawnOutcome.exited 1,
      setup ++ [Syscall.execv (argv.headD "") ⟨-1, e⟩] ++
        write_err_and_exit child_err_report_fd CHILD_EXEC_FAILED e)

/-- Embedding of the code at label `cleanup_and_fail` of `_dbus_spawn_async`
(dbus-sysdeps.c:2661). -/
def cleanup_and_fail (pid : Int) (p0 p1 : Int) (waits : List SysResult)
    (error : Option DBusError) (trace : List Syscall) : SpawnResult :=
  let w := if pid > 0 then (wait_again pid waits).1 else []
  let c0 := close_and_invalidate p0
  let c1 := close_and_invalidate p1
  { outcome := SpawnOutcome.returned false, error := error,
    child_err_report_pipe := (c0.1, c1.1), trace := trace ++ w ++ c0.2 ++ c1.2 }

/-- Embedding of `_dbus_spawn_async` (dbus-sysdeps.c:2550). `child_setup` tells
whether the callback is non-NULL. The array `int buf[2]` starts with
indeterminate contents, here zero bytes; the code reads it only in a `switch`
whose single label is `default`. -/
def _dbus_spawn_async (size_t_bits : Nat) (argv : List String) (child_setup : Bool)
    (env : SpawnEnv) : SpawnResult :=
  let mp := make_pipe env.pipe env.p0 env.p1
  if ¬ mp.1 then
    { outcome := SpawnOutcome.returned false, error := mp.2.1,
      child_err_report_pipe := (-1, -1), trace := mp.2.2 }
  else
    let pid := env.fork.ret
    let t0 := mp.2.2 ++ [Syscall.fork env.fork]
    if pid < 0 then
      { outcome := SpawnOutcome.returned false,
        error := dbus_set_error ErrorName.DBUS_ERROR_SPAWN_FORK_FAILED
          "Failed to fork (%s)" [FormatArg.errno_to_string env.fork.errno],
        child_err_report_pipe := (env.p0, env.p1), trace := t0 }
    else if pid = 0 then
      /- Immediate child. -/
      let c0 := close_and_invalidate env.p0
      let t1 := t0 ++ [Syscall.signal_sigpipe_dfl] ++ c0.2 ++ [Syscall.fork env.grandchild_fork]
      let grandchild_pid := env.grandchild_fork.ret
      if grandchild_pid < 0 then
        { outcome := SpawnOutcome.exited 1, error := none,
          child_err_report_pipe := (c0.1, env.p1),
          trace := t1 ++ write_err_and_exit env.p1 CHILD_FORK_FAILED env.grandchild_fork.errno }
      else if grandchild_pid = 0 then
        let ex := do_exec env.p1 argv child_setup env.execv_errno
        { outcome := ex.1, error := none, child_err_report_pipe := (c0.1, env.p1),
          trace := t1 ++ ex.2 }
      else
        { outcome := SpawnOutcome.exited 0, error := none,
          child_err_report_pipe := (c0.1, env.p1), trace := t1 ++ [Syscall.exit 0] }
    else
      /- Parent. -/
      let c1 := close_and_invalidate env.p1
      let w := wait_again pid env.waits
      let ri := read_ints size_t_bits env.p0 (List.replicate (2 * sizeof_int) 0) 2 env.reads
      let n_ints : Int := ri.n_ints_read.getD 0
      let t1 := t0 ++ c1.2 ++ w.1 ++ ri.calls
      if ¬ ri.ret then
        cleanup_and_fail pid env.p0 c1.1 w.2 ri.error t1
      else if n_ints ≥ 2 then
        /- Error from the child. -/
        cleanup_and_fail pid env.p0 c1.1 w.2
          (dbus_set_error ErrorName.DBUS_ERROR_SPAWN_FAILED
            "Unknown error executing child process \"%s\"" [FormatArg.str (argv.headD "")])
          t1
      else
        let c0 := close_and_invalidate env.p0
        { outcome := SpawnOutcome.returned true, error := none,
          child_err_report_pipe := (c0.1, c1.1), trace := t1 ++ c0.2 }

/-- The number of bytes the successive reads deliver before the first read
that returns 0 (end of file). -/
def bytes_before_eof : List ReadResult → Nat
  | [] => 0
  | r :: rs => if r.ret = 0 then 0 else r.ret.toNat + bytes_before_eof rs

/-- The descriptors of the reporting pipe created in `trace` and not closed in it. -/
def open_pipe_fds (trace : List Syscall) : List Int :=
  (trace.flatMap fun c =>
    match c with
    | Syscall.pipe res p0 p1 => if res.ret < 0 then [] else [p0, p1]
    | _ => []).filter fun fd => ¬ (Syscall.close fd ∈ trace)

/-- A `read` call of the trace returned 0 or a count between 1 and the number
of bytes requested (calls other than `read` pass). -/
def read_in_range : Syscall → Bool
  | Syscall.read _ _ count ret => decide (0 ≤ ret ∧ ret ≤ (count : Int))
  | _ => true

/-- The environment of a caller whose pipe is (3, 4), whose first child has
pid 100 and is reaped by the first `waitpid`, and whose reads on the pipe have
the outcomes `reads`. -/
def caller_env (reads : List ReadResult) : SpawnEnv :=
  { pipe := ⟨0, 0⟩, p0 := 3, p1 := 4, fork := ⟨100, 0⟩, waits := [⟨100, 0⟩],
    reads := reads, grandchild_fork := ⟨0, 0⟩, execv_errno := none }

/-- One read that delivers the whole record `write_err_and_exit` writes for
the stage tag `stage` and error number `en`. -/
def record_read (stage en : Int) : ReadResult :=
  ⟨8, 0, int_bytes stage ++ int_bytes en⟩

/-! ## Result codes -/

/-- The values of `DBusResultCode` that `dbus-sysdeps.c` uses. -/
inductive DBusResultCode where
  | DBUS_RESULT_SUCCESS
  | DBUS_RESULT_FAILED
  | DBUS_RESULT_NO_MEMORY
  | DBUS_RESULT_IO_ERROR
  | DBUS_RESULT_NOT_SUPPORTED
  | DBUS_RESULT_LIMITS_EXCEEDED
  | DBUS_RESULT_ACCESS_DENIED
  | DBUS_RESULT_NO_SERVER
  | DBUS_RESULT_TIMEOUT
  | DBUS_RESULT_NO_NETWORK
  | DBUS_RESULT_ADDRESS_IN_USE
  | DBUS_RESULT_FILE_NOT_FOUND
  deriving DecidableEq, Repr

/-- Embedding of `_dbus_result_from_errno` (dbus-sysdeps.c:2728), every errno
constant of the `switch` being defined. -/
def _dbus_result_from_errno (error_number : Int) : DBusResultCode :=
  if error_number = 0 then DBusResultCode.DBUS_RESULT_SUCCESS
  else if error_number = EPROTONOSUPPORT then DBusResultCode.DBUS_RESULT_NOT_SUPPORTED
  else if error_number = EAFNOSUPPORT then DBusResultCode.DBUS_RESULT_NOT_SUPPORTED
  else if error_number = ENFILE then DBusResultCode.DBUS_RESULT_LIMITS_EXCEEDED
  else if error_number = EMFILE then DBusResultCode.DBUS_RESULT_LIMITS_EXCEEDED
  else if error_number = EACCES then DBusResultCode.DBUS_RESULT_ACCESS_DENIED
  else if error_number = EPERM then DBusResultCode.DBUS_RESULT_ACCESS_DENIED
  else if error_number = ENOBUFS then DBusResultCode.DBUS_RESULT_NO_MEMORY
  else if error_number = ENOMEM then DBusResultCode.DBUS_RESULT_NO_MEMORY
  else if error_number = EINVAL then DBusResultCode.DBUS_RESULT_FAILED
  else if error_number = EBADF then DBusResultCode.DBUS_RESULT_FAILED
  else if error_number = EFAULT then DBusResultCode.DBUS_RESULT_FAILED
  else if error_number = ENOTSOCK then DBusResultCode.DBUS_RESULT_FAILED
  else if error_number = EISCONN then DBusResultCode.DBUS_RESULT_FAILED
  else if error_number = ECONNREFUSED then DBusResultCode.DBUS_RESULT_NO_SERVER
  else if error_number = ETIMEDOUT then DBusResultCode.DBUS_RESULT_TIMEOUT
  else if error_number = ENETUNREACH then DBusResultCode.DBUS_RESULT_NO_NETWORK
  else if error_number = EADDRINUSE then DBusResultCode.DBUS_RESULT_ADDRESS_IN_USE
  else if error_number = EEXIST then DBusResultCode.DBUS_RESULT_FILE_NOT_FOUND
  else if error_number = ENOENT then DBusResultCode.DBUS_RESULT_FILE_NOT_FOUND
  else DBusResultCode.DBUS_RESULT_FAILED

/-! ## Sockets -/

/-- The first argument of `socket`. -/
inductive SockDomain where
  | PF_UNIX
  | AF_INET
  deriving DecidableEq, Repr

/-- The calls the socket functions make, in the order made. -/
inductive SockCall where
  | socket (domain : SockDomain) (res : SysResult)
  | gethostbyname (name : String) (addr : Option Nat)
  | connect_un (fd : Int) (sun_path : List Nat) (res : SysResult)
  | connect_in (fd : Int) (addr : Nat) (port : Nat) (res : SysResult)
  | bind_un (fd : Int) (sun_path : List Nat) (res : SysResult)
  | bind_in (fd : Int) (addr : Nat) (port : Nat) (res : SysResult)
  | listen (fd : Int) (backlog : Nat) (res : SysResult)
  | set_fd_nonblocking (fd : Int) (ok : Bool)
  | close (fd : Int)
  | accept (listen_fd : Int) (res : SysResult)
  deriving DecidableEq, Repr

/-- What the environment answers to the calls of the connect and listen
functions. `_dbus_set_fd_nonblocking` is declared outside `dbus-sysdeps.c`; its
return value and the result code it stores when it fails are taken from here. -/
structure SockEnv where
  /-- Outcome of `socket ()`. -/
  socket : SysResult
  /-- The address `gethostbyname` finds, `none` when it returns NULL. -/
  host_addr : Option Nat
  /-- The value of `errno` after `gethostbyname`. -/
  host_errno : Int
  /-- Outcome of `connect ()`. -/
  connect : SysResult
  /-- Outcome of `bind ()`. -/
  bind : SysResult
  /-- Outcome of `listen ()`. -/
  listen : SysResult
  /-- Return value of `_dbus_set_fd_nonblocking`. -/
  set_fd_nonblocking : Bool
  /-- The result code `_dbus_set_fd_nonblocking` stores when it fails. -/
  nonblocking_result : DBusResultCode
  deriving DecidableEq, Repr

/-- The result of a socket function: the value returned, the code stored in
`*result` (`none` when nothing was stored), and the calls made. -/
structure SockResult where
  ret : Int
  result : Option DBusResultCode
  trace : List SockCall
  deriving DecidableEq, Repr

/-- The string left in `addr.sun_path` by `_DBUS_ZERO (addr)`,
`strncpy (addr.sun_path, path, _DBUS_MAX_SUN_PATH_LENGTH)` and
`addr.sun_path[_DBUS_MAX_SUN_PATH_LENGTH] = 0`, without its NUL: `path` holds
the bytes of the C string, `max_sun_path_length` is the macro, defined outside
`dbus-sysdeps.c`. -/
def sun_path (max_sun_path_length : Nat) (path : List Nat) : List Nat :=
  path.take max_sun_path_length

/-- The 16-bit port `htons (port)` puts in the address, for a `dbus_uint32_t`. -/
def sin_port (port : Nat) : Nat :=
  port % 65536

/-- Embedding of `_dbus_connect_unix_socket` (dbus-sysdeps.c:325). -/
def _dbus_connect_unix_socket (max_sun_path_length : Nat) (path : List Nat) (env : SockEnv) :
    SockResult :=
  let fd := env.socket.ret
  let t0 := [SockCall.socket SockDomain.PF_UNIX env.socket]
  if fd < 0 then
    { ret := -1, result := some (_dbus_result_from_errno env.socket.errno), trace := t0 }
  else
    let t1 := t0 ++ [SockCall.connect_un fd (sun_path max_sun_path_length path) env.connect]
    if env.connect.ret < 0 then
      { ret := -1, result := some (_dbus_result_from_errno env.connect.errno),
        trace := t1 ++ [SockCall.close fd] }
    else if ¬ env.set_fd_nonblocking then
      { ret := -1, result := some env.nonblocking_result,
        trace := t1 ++ [SockCall.set_fd_nonblocking fd false, SockCall.close fd] }
    else
      { ret := fd, result := none, trace := t1 ++ [SockCall.set_fd_nonblocking fd true] }

/-- Embedding of `_dbus_listen_unix_socket` (dbus-sysdeps.c:384). -/
def _dbus_listen_unix_socket (max_sun_path_length : Nat) (path : List Nat) (env : SockEnv) :
    SockResult :=
  let listen_fd := env.socket.ret
  let t0 := [SockCall.socket SockDomain.PF_UNIX env.socket]
  if listen_fd < 0 then
    { ret := -1, result := some (_dbus_result_from_errno env.socket.errno), trace := t0 }
  else
    let t1 := t0 ++ [SockCall.bind_un listen_fd (sun_path max_sun_path_length path) env.bind]
    if env.bind.ret < 0 then
      { ret := -1, result := some (_dbus_result_from_errno env.bind.errno),
        trace := t1 ++ [SockCall.close listen_fd] }
    else
      let t2 := t1 ++ [SockCall.listen listen_fd 30 env.listen]
      if env.listen.ret < 0 then
        { ret := -1, result := some (_dbus_result_from_errno env.listen.errno),
          trace := t2 ++ [SockCall.close listen_fd] }
      else if ¬ env.set_fd_nonblocking then
        { ret := -1, result := some env.nonblocking_result,
          trace := t2 ++ [SockCall.set_fd_nonblocking listen_fd false, SockCall.close listen_fd] }
      else
        { ret := listen_fd, result := none,
          trace := t2 ++ [SockCall.set_fd_nonblocking listen_fd true] }

/-- Embedding of `_dbus_connect_tcp_socket` (dbus-sysdeps.c:443); `host` is
`none` for a NULL pointer. -/
def _dbus_connect_tcp_socket (host : Option String) (port : Nat) (env : SockEnv) :
    SockResult :=
  let fd := env.socket.ret
  let t0 := [SockCall.socket SockDomain.AF_INET env.socket]
  if fd < 0 then
    { ret := -1, result := some (_dbus_result_from_errno env.socket.errno), trace := t0 }
  else
    let host := match host with
      | none => "localhost"
      | some h => h
    let t1 := t0 ++ [SockCall.gethostbyname host env.host_addr]
    match env.host_addr with
    | none =>
      { ret := -1, result := some (_dbus_result_from_errno env.host_errno), trace := t1 }
    | some haddr =>
      let t2 := t1 ++ [SockCall.connect_in fd haddr (sin_port port) env.connect]
      if env.connect.ret < 0 then
        { ret := -1, result := some (_dbus_result_from_errno env.connect.errno),
          trace := t2 ++ [SockCall.close fd] }
      else if ¬ env.set_fd_nonblocking then
        { ret := -1, result := some env.nonblocking_result,
          trace := t2 ++ [SockCall.set_fd_nonblocking fd false, SockCall.close fd] }
      else
        { ret := fd, result := none, trace := t2 ++ [SockCall.set_fd_nonblocking fd true] }

/-- Embedding of `_dbus_listen_tcp_socket` (dbus-sysdeps.c:521); `host` is
`none` for a NULL pointer. The test on `bind` is `if (bind (...))`. -/
def _dbus_listen_tcp_socket (host : Option String) (port : Nat) (env : SockEnv) :
    SockResult :=
  let listen_fd := env.socket.ret
  let t0 := [SockCall.socket SockDomain.AF_INET env.socket]
  if listen_fd < 0 then
    { ret := -1, result := some (_dbus_result_from_errno env.socket.errno), trace := t0 }
  else
    let host := match host with
      | none => "localhost"
      | some h => h
    let t1 := t0 ++ [SockCall.gethostbyname host env.host_addr]
    match env.host_addr with
    | none =>
      { ret := -1, result := some (_dbus_result_from_errno env.host_errno), trace := t1 }
    | some haddr =>
      let t2 := t1 ++ [SockCall.bind_in listen_fd haddr (sin_port port) env.bind]
      if env.bind.ret ≠ 0 then
        { ret := -1, result := some (_dbus_result_from_errno env.bind.errno),
          trace := t2 ++ [SockCall.close listen_fd] }
      else
        let t3 := t2 ++ [SockCall.listen listen_fd 30 env.listen]
        if env.listen.ret < 0 then
          { ret := -1, result := some (_dbus_result_from_errno env.listen.errno),
            trace := t3 ++ [SockCall.close listen_fd] }
        else if ¬ env.set_fd_nonblocking then
          { ret := -1, result := some env.nonblocking_result,
            trace := t3 ++
              [SockCall.set_fd_nonblocking listen_fd false, SockCall.close listen_fd] }
        else
          { ret := listen_fd, result := none,
            trace := t3 ++ [SockCall.set_fd_nonblocking listen_fd true] }

/-- Embedding of `_dbus_accept` (dbus-sysdeps.c:794): the value returned and the
calls made. The list holds the outcomes of the successive `accept` calls; once
it is used up no connection is pending and `accept` fails with `EAGAIN`. -/
def _dbus_accept (listen_fd : Int) : List SysResult → Int × List SockCall
  | [] => (-1, [SockCall.accept listen_fd ⟨-1, EAGAIN⟩])
  | r :: rs =>
    let client_fd := r.ret
    if client_fd < 0 then
      if r.errno = EINTR then
        ((_dbus_accept listen_fd rs).1,
          SockCall.accept listen_fd r :: (_dbus_accept listen_fd rs).2)
      else
        (client_fd, [SockCall.accept listen_fd r])
    else
      (client_fd, [SockCall.accept listen_fd r])

/-- Whether descriptor `fd` is in non-blocking mode after the calls of `trace`:
a descriptor is created in blocking mode and becomes non-blocking when the
non-blocking step succeeds on it. -/
def fd_nonblocking (trace : List SockCall) (fd : Int) : Bool :=
  decide (SockCall.set_fd_nonblocking fd true ∈ trace)

/-- An environment in which every call of the connect and listen functions
succeeds, `socket ()` returning descriptor 5. -/
def sock_env_ok : SockEnv :=
  { socket := ⟨5, 0⟩, host_addr := some 2130706433, host_errno := 0, connect := ⟨0, 0⟩,
    bind := ⟨0, 0⟩, listen := ⟨0, 0⟩, set_fd_nonblocking := true,
    nonblocking_result := DBusResultCode.DBUS_RESULT_FAILED }

/-! ## The credentials byte -/

/-- The calls the credential functions make, in the order made. -/
inductive CredCall where
  | write (fd : Int) (bytes : List Nat) (res : SysResult)
  | setsockopt_local_creds (fd : Int) (res : SysResult)
  | recvmsg (fd : Int) (ret : Int) (errno : Int)
  | getsockopt_peercred (fd : Int) (res : SysResult)
  deriving DecidableEq, Repr

/-- The result of `write_credentials_byte`: the value returned, the code stored
in `*result` (`none` when nothing was stored), and the calls made. -/
structure WriteCredResult where
  ret : Bool
  result : Option DBusResultCode
  trace : List CredCall
  deriving DecidableEq, Repr

/-- Embedding of `write_credentials_byte` (dbus-sysdeps.c:588). The list holds
the outcomes of the successive `write (server_fd, buf, 1)` calls, `buf` being
the one byte 0; once it is used up the descriptor cannot take a byte and
`write` fails with `EAGAIN`. `bytes_written` is an `int`. The assertion
`bytes_written == 1` of the last branch holds for every `write` that returns
at most the count it was given. -/
def write_credentials_byte (server_fd : Int) : List SysResult → WriteCredResult
  | [] =>
    { ret := false, result := some (_dbus_result_from_errno EAGAIN),
      trace := [CredCall.write server_fd [0] ⟨-1, EAGAIN⟩] }
  | r :: rs =>
    let bytes_written := r.ret
    if bytes_written < 0 ∧ r.errno = EINTR then
      { ret := (write_credentials_byte server_fd rs).ret,
        result := (write_credentials_byte server_fd rs).result,
        trace := CredCall.write server_fd [0] r :: (write_credentials_byte server_fd rs).trace }
    else if bytes_written < 0 then
      { ret := false, result := some (_dbus_result_from_errno r.errno),
        trace := [CredCall.write server_fd [0] r] }
    else if bytes_written = 0 then
      { ret := false, result := some DBusResultCode.DBUS_RESULT_IO_ERROR,
        trace := [CredCall.write server_fd [0] r] }
    else
      { ret := true, result := none, trace := [CredCall.write server_fd [0] r] }

/-- Embedding of `_dbus_send_credentials_unix_socket` (dbus-sysdeps.c:777). -/
def _dbus_send_credentials_unix_socket (server_fd : Int) (writes : List SysResult) :
    WriteCredResult :=
  if (write_credentials_byte server_fd writes).ret then
    { write_credentials_byte server_fd writes with ret := true }
  else
    { write_credentials_byte server_fd writes with ret := false }

/-- The platform configuration `_dbus_read_credentials_unix_socket` is compiled
for: which of `SO_PEERCRED`, `HAVE_CMSGCRED`, `LOCAL_CREDS` are defined, and the
platform's `sizeof (cmsgmem)`, `SCM_CREDS` and `sizeof (struct ucred)`. -/
structure CredConfig where
  SO_PEERCRED : Bool
  HAVE_CMSGCRED : Bool
  LOCAL_CREDS : Bool
  sizeof_cmsgmem : Nat
  SCM_CREDS : Int
  sizeof_ucred : Int
  deriving DecidableEq, Repr

/-- The outcome of one call of `recvmsg (client_fd, &msg, 0)`: the value
returned, `errno` after the call, the byte stored in `buf` (`none` when no byte
was stored), and the control message left in `cmsgmem`, which was zeroed
before the call: `cmsg_len`, `cmsg_type` and the credentials it carries. -/
structure RecvResult where
  ret : Int
  errno : Int
  byte : Option Nat
  cmsg_len : Nat
  cmsg_type : Int
  cmcred : DBusCredentials
  deriving DecidableEq, Repr

/-- What the environment answers to the calls of
`_dbus_read_credentials_unix_socket`. -/
structure ReadCredEnv where
  /-- Outcome of `setsockopt (client_fd, 0, LOCAL_CREDS, ...)`. -/
  setsockopt : SysResult
  /-- Outcomes of the successive `recvmsg` calls. -/
  recvs : List RecvResult
  /-- The contents of the variable `buf`, which is not initialised, on entry. -/
  buf_init : Nat
  /-- Outcome of `getsockopt (client_fd, SOL_SOCKET, SO_PEERCRED, &cr, &cr_len)`. -/
  getsockopt : SysResult
  /-- The length `getsockopt` leaves in `cr_len`. -/
  cr_len : Int
  /-- The credentials `getsockopt` leaves in `cr`. -/
  cr : DBusCredentials
  deriving DecidableEq, Repr

/-- The result of `_dbus_read_credentials_unix_socket`: the value returned, the
credentials left in `*credentials`, the code stored in `*result` (`none` when
nothing was stored), and the calls made. -/
structure ReadCredResult where
  ret : Bool
  credentials : DBusCredentials
  result : Option DBusResultCode
  trace : List CredCall
  deriving DecidableEq, Repr

/-- Embedding of the `recvmsg` loop at label `again` of
`_dbus_read_credentials_unix_socket` (dbus-sysdeps.c:692): the outcome of the
first call that is not interrupted, and the calls made. The list holds the
outcomes of the successive calls; once it is used up no byte is available
and `recvmsg` fails with `EAGAIN`. -/
def recvmsg_again (client_fd : Int) : List RecvResult → RecvResult × List CredCall
  | [] =>
    (⟨-1, EAGAIN, none, 0, 0, ⟨-1, -1, -1⟩⟩, [CredCall.recvmsg client_fd (-1) EAGAIN])
  | r :: rs =>
    if r.ret < 0 then
      if r.errno = EINTR then
        ((recvmsg_again client_fd rs).1,
          CredCall.recvmsg client_fd r.ret r.errno :: (recvmsg_again client_fd rs).2)
      else
        (r, [CredCall.recvmsg client_fd r.ret r.errno])
    else
      (r, [CredCall.recvmsg client_fd r.ret r.errno])

/-- Embedding of `_dbus_read_credentials_unix_socket` (dbus-sysdeps.c:641), the
preprocessor conditions being tests on `cfg`. -/
def _dbus_read_credentials_unix_socket (cfg : CredConfig) (client_fd : Int)
    (env : ReadCredEnv) : ReadCredResult :=
  let unknown : DBusCredentials := ⟨-1, -1, -1⟩
  let t0 :=
    if cfg.LOCAL_CREDS ∧ cfg.HAVE_CMSGCRED then
      [CredCall.setsockopt_local_creds client_fd env.setsockopt]
    else []
  if cfg.LOCAL_CREDS ∧ cfg.HAVE_CMSGCRED ∧ env.setsockopt.ret < 0 then
    { ret := false, credentials := unknown, result := none, trace := t0 }
  else
    let rv := recvmsg_again client_fd env.recvs
    let t1 := t0 ++ rv.2
    if rv.1.ret < 0 then
      { ret := false, credentials := unknown,
        result := some (_dbus_result_from_errno rv.1.errno), trace := t1 }
    else
      let buf := rv.1.byte.getD env.buf_init
      if buf ≠ 0 then
        { ret := false, credentials := unknown,
          result := some DBusResultCode.DBUS_RESULT_FAILED, trace := t1 }
      else if cfg.HAVE_CMSGCRED ∧
          (rv.1.cmsg_len < cfg.sizeof_cmsgmem ∨ rv.1.cmsg_type ≠ cfg.SCM_CREDS) then
        { ret := false, credentials := unknown,
          result := some DBusResultCode.DBUS_RESULT_FAILED, trace := t1 }
      else if cfg.SO_PEERCRED then
        if env.getsockopt.ret = 0 ∧ env.cr_len = cfg.sizeof_ucred then
          { ret := true, credentials := env.cr, result := none,
            trace := t1 ++ [CredCall.getsockopt_peercred client_fd env.getsockopt] }
        else
          { ret := true, credentials := unknown, result := none,
            trace := t1 ++ [CredCall.getsockopt_peercred client_fd env.getsockopt] }
      else if cfg.HAVE_CMSGCRED then
        { ret := true, credentials := rv.1.cmcred, result := none, trace := t1 }
      else
        { ret := true, credentials := unknown, result := none, trace := t1 }

/-- A configuration with `SO_PEERCRED` only (Linux). -/
def cfg_peercred : CredConfig :=
  { SO_PEERCRED := true, HAVE_CMSGCRED := false, LOCAL_CREDS := false,
    sizeof_cmsgmem := 0, SCM_CREDS := 2, sizeof_ucred := 12 }

/-- A configuration with `HAVE_CMSGCRED` only (credentials in a control
message of 96 bytes, `SCM_CREDS` being 3). -/
def cfg_cmsgcred : CredConfig :=
  { SO_PEERCRED := false, HAVE_CMSGCRED := true, LOCAL_CREDS := false,
    sizeof_cmsgmem := 96, SCM_CREDS := 3, sizeof_ucred := 12 }

/-- An environment of `_dbus_read_credentials_unix_socket` with the given
`recvmsg` outcomes and initial contents of `buf`, in which `setsockopt`
succeeds and `getsockopt` gives the credentials (pid 4242, uid 1000, gid 1000). -/
def read_cred_env (recvs : List RecvResult) (buf_init : Nat) : ReadCredEnv :=
  { setsockopt := ⟨0, 0⟩, recvs := recvs, buf_init := buf_init, getsockopt := ⟨0, 0⟩,
    cr_len := 12, cr := ⟨4242, 1000, 1000⟩ }

/-! ## The table of result codes -/

/-- The table of the specification for `_dbus_result_from_errno`, row by row:
0, then the pairs and single error numbers with their kinds, every other error
number being `Failed`. -/
def result_code_table (e : Int) : DBusResultCode :=
  if e = 0 then DBusResultCode.DBUS_RESULT_SUCCESS
  else if e = EPROTONOSUPPORT ∨ e = EAFNOSUPPORT then DBusResultCode.DBUS_RESULT_NOT_SUPPORTED
  else if e = ENFILE ∨ e = EMFILE then DBusResultCode.DBUS_RESULT_LIMITS_EXCEEDED
  else if e = EACCES ∨ e = EPERM then DBusResultCode.DBUS_RESULT_ACCESS_DENIED
  else if e = ENOBUFS ∨ e = ENOMEM then DBusResultCode.DBUS_RESULT_NO_MEMORY
  else if e = ECONNREFUSED then DBusResultCode.DBUS_RESULT_NO_SERVER
  else if e = ETIMEDOUT then DBusResultCode.DBUS_RESULT_TIMEOUT
  else if e = ENETUNREACH then DBusResultCode.DBUS_RESULT_NO_NETWORK
  else if e = EADDRINUSE then DBusResultCode.DBUS_RESULT_ADDRESS_IN_USE
  else if e = EEXIST ∨ e = ENOENT then DBusResultCode.DBUS_RESULT_FILE_NOT_FOUND
  else DBusResultCode.DBUS_RESULT_FAILED

/-- The nine kinds of the error taxonomy surfaced to callers, as the
specification lists them: NotSupported, AccessDenied, NoMemory, NoServer,
Timeout, NoNetwork, AddressInUse, FileNotFound, Failed. -/
def surfaced_kinds : List DBusResultCode :=
  [DBusResultCode.DBUS_RESULT_NOT_SUPPORTED, DBusResultCode.DBUS_RESULT_ACCESS_DENIED,
    DBusResultCode.DBUS_RESULT_NO_MEMORY, DBusResultCode.DBUS_RESULT_NO_SERVER,
    DBusResultCode.DBUS_RESULT_TIMEOUT, DBusResultCode.DBUS_RESULT_NO_NETWORK,
    DBusResultCode.DBUS_RESULT_ADDRESS_IN_USE, DBusResultCode.DBUS_RESULT_FILE_NOT_FOUND,
    DBusResultCode.DBUS_RESULT_FAILED]

/-! ## The socket address of a path -/

/-- The array `dest` after `strncpy (dest, src, n)`, `src` holding the bytes of
the C string before its NUL: the first `n` bytes of `src`, padded with NULs up
to `n` bytes when `src` is shorter. -/
def strncpy (dest : List Nat) (src : List Nat) (n : Nat) : List Nat :=
  src.take n ++ List.replicate (n - src.length) 0 ++ dest.drop n

/-- The array `addr.sun_path`, of `sizeof_sun_path` bytes, after
`_DBUS_ZERO (addr)`, `strncpy (addr.sun_path, path, _DBUS_MAX_SUN_PATH_LENGTH)`
and `addr.sun_path[_DBUS_MAX_SUN_PATH_LENGTH] = 0` (dbus-sysdeps.c:345 and
dbus-sysdeps.c:401). -/
def sun_path_array (sizeof_sun_path max_sun_path_length : Nat) (path : List Nat) : List Nat :=
  (strncpy (List.replicate sizeof_sun_path 0) path max_sun_path_length).set
    max_sun_path_length 0

/-! ## `_dbus_read` -/

/-- The result of `_dbus_read`: the value returned, `errno` when -1 is
returned, the buffer, and the `read` calls made. -/
structure DBusRead where
  ret : Int
  errno : Option Int
  buffer : List Nat
  calls : List Syscall
  deriving DecidableEq, Repr

/-- Embedding of the code of `_dbus_read` from label `again` on
(dbus-sysdeps.c:164): `buffer` is the string already lengthened by `count`
bytes, `start` its former length. The list holds the outcomes of the successive
`read` calls; once it is used up `read` returns 0 (end of file).
`_dbus_string_set_length`, declared outside `dbus-sysdeps.c`, keeps the first
bytes of the string. -/
def _dbus_read_again (fd : Int) (start : Nat) (count : Int) :
    List ReadResult → List Nat → DBusRead
  | [], buffer =>
    { ret := 0, errno := none, buffer := buffer.take start,
      calls := [Syscall.read fd start count.toNat 0] }
  | r :: rs, buffer =>
    let bytes_read := r.ret
    let call := Syscall.read fd start count.toNat r.ret
    let buffer' := store_bytes buffer start r.data
    if bytes_read < 0 then
      if r.errno = EINTR then
        { ret := (_dbus_read_again fd start count rs buffer').ret,
          errno := (_dbus_read_again fd start count rs buffer').errno,
          buffer := (_dbus_read_again fd start count rs buffer').buffer,
          calls := call :: (_dbus_read_again fd start count rs buffer').calls }
      else
        { ret := -1, errno := some r.errno, buffer := buffer'.take start, calls := [call] }
    else
      { ret := bytes_read, errno := none, buffer := buffer'.take (start + bytes_read.toNat),
        calls := [call] }

/-- Embedding of `_dbus_read` (dbus-sysdeps.c:142). `_dbus_string_lengthen` is
declared outside `dbus-sysdeps.c`: `lengthen_ok` is its return value, and when
it succeeds the string is `count` bytes longer, the new bytes being `fill`. -/
def _dbus_read (fd : Int) (buffer : List Nat) (count : Int) (lengthen_ok : Bool)
    (fill : Nat) (reads : List ReadResult) : DBusRead :=
  let start := buffer.length
  if ¬ lengthen_ok then
    { ret := -1, errno := some ENOMEM, buffer := buffer, calls := [] }
  else
    _dbus_read_again fd start count reads (buffer ++ List.replicate count.toNat fill)

/-! ## `_dbus_concat_dir_and_file` -/

/-- Embedding of `_dbus_concat_dir_and_file` (dbus-sysdeps.c:2148): the value
returned and the string `dir` afterwards. Strings are the lists of their
bytes, 47 being the slash. `_dbus_string_append_byte` and `_dbus_string_copy` are
declared outside `dbus-sysdeps.c`: `append_ok` and `copy_ok` are their return
values, and a call that fails leaves the string as it was. -/
def _dbus_concat_dir_and_file (dir next_component : List Nat) (append_ok copy_ok : Bool) :
    Bool × List Nat :=
  if dir.length = 0 ∨ next_component.length = 0 then
    (true, dir)
  else
    let dir_ends_in_slash : Bool := decide (47 = dir.getD (dir.length - 1) 0)
    let file_starts_with_slash : Bool := decide (47 = next_component.getD 0 0)
    if dir_ends_in_slash ∧ file_starts_with_slash then
      let dir1 := dir.take (dir.length - 1)
      if copy_ok then (true, dir1 ++ next_component) else (false, dir1)
    else if ¬ (dir_ends_in_slash ∨ file_starts_with_slash) then
      if ¬ append_ok then
        (false, dir)
      else
        let dir1 := dir ++ [47]
        if copy_ok then (true, dir1 ++ next_component) else (false, dir1)
    else
      if copy_ok then (true, dir ++ next_component) else (false, dir)

/-- The string `dir` without one trailing slash, when it has one. -/
def without_trailing_slash (dir : List Nat) : List Nat :=
  if dir.getLast? = some 47 then dir.dropLast else dir

/-- The string `next_component` without one leading slash, when it has one. -/
def without_leading_slash (next_component : List Nat) : List Nat :=
  if next_component.head? = some 47 then next_component.tail else next_component

/-! ## `_dbus_credentials_from_uid_string` -/

/-- The outcome of `strtol (p, &end, 0)`: the value returned, the number of
bytes consumed (`end - p`), and `errno` after the call. -/
structure StrtolResult where
  value : Int
  consumed : Nat
  errno : Int
  deriving DecidableEq, Repr

/-- Embedding of `_dbus_string_parse_int` (dbus-sysdeps.c:947), `strtol` being
answered by the environment: the value returned, `*value_return` and
`*end_return` (`none` when not stored). -/
def _dbus_string_parse_int (start : Nat) (strtol : StrtolResult) :
    Bool × Option Int × Option Nat :=
  if strtol.consumed = 0 ∨ strtol.errno ≠ 0 then
    (false, none, none)
  else
    (true, some strtol.value, some (start + strtol.consumed))

/-- The conversion of a `long` to `int` in the assignment
`credentials->uid = uid`: the low 32 bits, read as two's complement. -/
def long_to_int (v : Int) : Int :=
  to_int (v % 2 ^ 32).toNat

/-- Embedding of `_dbus_credentials_from_uid_string` (dbus-sysdeps.c:1344): the
value returned and the credentials left. -/
def _dbus_credentials_from_uid_string (uid_str : List Nat) (strtol : StrtolResult) :
    Bool × DBusCredentials :=
  let credentials : DBusCredentials := ⟨-1, -1, -1⟩
  if uid_str.length = 0 then
    (false, credentials)
  else
    let parsed := _dbus_string_parse_int 0 strtol
    let uid : Int := parsed.2.1.getD (-1)
    let end_ : Nat := parsed.2.2.getD 0
    if ¬ parsed.1 then
      (false, credentials)
    else if end_ ≠ uid_str.length then
      (false, credentials)
    else
      (true, { credentials with uid := long_to_int uid })

/-! ## Error names -/

/-- The error names `_dbus_error_from_errno` returns. -/
inductive DBusErrorName where
  | DBUS_ERROR_FAILED
  | DBUS_ERROR_NOT_SUPPORTED
  | DBUS_ERROR_LIMITS_EXCEEDED
  | DBUS_ERROR_ACCESS_DENIED
  | DBUS_ERROR_NO_MEMORY
  | DBUS_ERROR_NO_SERVER
  | DBUS_ERROR_TIMEOUT
  | DBUS_ERROR_NO_NETWORK
  | DBUS_ERROR_ADDRESS_IN_USE
  | DBUS_ERROR_FILE_NOT_FOUND
  deriving DecidableEq, Repr

/-- Embedding of `_dbus_error_from_errno` (dbus-sysdeps.c:2826), every errno
constant of the `switch` being defined. -/
def _dbus_error_from_errno (error_number : Int) : DBusErrorName :=
  if error_number = 0 then DBusErrorName.DBUS_ERROR_FAILED
  else if error_number = EPROTONOSUPPORT then DBusErrorName.DBUS_ERROR_NOT_SUPPORTED
  else if error_number = EAFNOSUPPORT then DBusErrorName.DBUS_ERROR_NOT_SUPPORTED
  else if error_number = ENFILE then DBusErrorName.DBUS_ERROR_LIMITS_EXCEEDED
  else if error_number = EMFILE then DBusErrorName.DBUS_ERROR_LIMITS_EXCEEDED
  else if error_number = EACCES then DBusErrorName.DBUS_ERROR_ACCESS_DENIED
  else if error_number = EPERM then DBusErrorName.DBUS_ERROR_ACCESS_DENIED
  else if error_number = ENOBUFS then DBusErrorName.DBUS_ERROR_NO_MEMORY
  else if error_number = ENOMEM then DBusErrorName.DBUS_ERROR_NO_MEMORY
  else if error_number = EINVAL then DBusErrorName.DBUS_ERROR_FAILED
  else if error_number = EBADF then DBusErrorName.DBUS_ERROR_FAILED
  else if error_number = EFAULT then DBusErrorName.DBUS_ERROR_FAILED
  else if error_number = ENOTSOCK then DBusErrorName.DBUS_ERROR_FAILED
  else if error_number = EISCONN then DBusErrorName.DBUS_ERROR_FAILED
  else if error_number = ECONNREFUSED then DBusErrorName.DBUS_ERROR_NO_SERVER
  else if error_number = ETIMEDOUT then DBusErrorName.DBUS_ERROR_TIMEOUT
  else if error_number = ENETUNREACH then DBusErrorName.DBUS_ERROR_NO_NETWORK
  else if error_number = EADDRINUSE then DBusErrorName.DBUS_ERROR_ADDRESS_IN_USE
  else if error_number = EEXIST then DBusErrorName.DBUS_ERROR_FILE_NOT_FOUND
  else if error_number = ENOENT then DBusErrorName.DBUS_ERROR_FILE_NOT_FOUND
  else DBusErrorName.DBUS_ERROR_FAILED

/-- The error name of the same kind as a result code; Success and the I/O
error, which `_dbus_result_from_errno` never gives for an error number other
than 0, have none among the names of `_dbus_error_from_errno`. -/
def error_name_of_kind : DBusResultCode → Option DBusErrorName
  | DBusResultCode.DBUS_RESULT_SUCCESS => none
  | DBusResultCode.DBUS_RESULT_FAILED => some DBusErrorName.DBUS_ERROR_FAILED
  | DBusResultCode.DBUS_RESULT_NO_MEMORY => some DBusErrorName.DBUS_ERROR_NO_MEMORY
  | DBusResultCode.DBUS_RESULT_IO_ERROR => none
  | DBusResultCode.DBUS_RESULT_NOT_SUPPORTED => some DBusErrorName.DBUS_ERROR_NOT_SUPPORTED
  | DBusResultCode.DBUS_RESULT_LIMITS_EXCEEDED => some DBusErrorName.DBUS_ERROR_LIMITS_EXCEEDED
  | DBusResultCode.DBUS_RESULT_ACCESS_DENIED => some DBusErrorName.DBUS_ERROR_ACCESS_DENIED
  | DBusResultCode.DBUS_RESULT_NO_SERVER => some DBusErrorName.DBUS_ERROR_NO_SERVER
  | DBusResultCode.DBUS_RESULT_TIMEOUT => some DBusErrorName.DBUS_ERROR_TIMEOUT
  | DBusResultCode.DBUS_RESULT_NO_NETWORK => some DBusErrorName.DBUS_ERROR_NO_NETWORK
  | DBusResultCode.DBUS_RESULT_ADDRESS_IN_USE => some DBusErrorName.DBUS_ERROR_ADDRESS_IN_USE
  | DBusResultCode.DBUS_RESULT_FILE_NOT_FOUND => some DBusErrorName.DBUS_ERROR_FILE_NOT_FOUND

/-! ## Data slots (`dbus/dbus-dataslot.h`) -/

/-- The struct `DBusDataSlot` (dbus-dataslot.h:36): the application data and
the function that frees it, pointers being numbers and 0 the NULL pointer. -/
structure DBusDataSlot where
  data : Nat
  free_data_func : Nat
  deriving DecidableEq, Repr

/-- The struct `DBusDataSlotList` (dbus-dataslot.h:49): the slots it has
storage for, `n_slots` being the length of `slots`. -/
structure DBusDataSlotList where
  slots : List DBusDataSlot
  deriving DecidableEq, Repr

/-- The result of `_dbus_data_slot_list_set`: the value returned, the list
afterwards, `*old_data` and `*old_free_func`, and the calls of free functions
made during the call, each with the data it was given. -/
structure SlotSet where
  ret : Bool
  list : DBusDataSlotList
  old_data : Nat
  old_free_func : Nat
  invoked : List (Nat × Nat)
  deriving DecidableEq, Repr

/-- Modelled from the spec: `_dbus_data_slot_list_set`, declared in
dbus-dataslot.h, whose code (dbus-dataslot.c) is not among the sources. It
grows the storage of the list, with unset slots, when the slot id is beyond
it, stores the new pair and returns the pair stored before (the null pair when
unset); it never calls a free function itself. The allocator argument of the
declaration serves the check that the slot is allocated and is left out. -/
def _dbus_data_slot_list_set (list : DBusDataSlotList) (slot : Nat) (data : Nat)
    (free_data_func : Nat) : SlotSet :=
  let slots :=
    if slot ≥ list.slots.length then
      list.slots ++ List.replicate (slot + 1 - list.slots.length) ⟨0, 0⟩
    else list.slots
  { ret := true, list := ⟨slots.set slot ⟨data, free_data_func⟩⟩,
    old_data := (slots.getD slot ⟨0, 0⟩).data,
    old_free_func := (slots.getD slot ⟨0, 0⟩).free_data_func,
    invoked := [] }

/-- Modelled from the spec: `_dbus_data_slot_list_get`, declared in
dbus-dataslot.h, whose code is not among the sources: the data stored in the
slot, NULL when the slot is beyond the storage of the list or unset. -/
def _dbus_data_slot_list_get (list : DBusDataSlotList) (slot : Nat) : Nat :=
  if slot ≥ list.slots.length then 0 else (list.slots.getD slot ⟨0, 0⟩).data

/-- Modelled from the spec: `_dbus_data_slot_list_free`, declared in
dbus-dataslot.h, whose code is not among the sources: it calls the free
function of each slot that has one, in ascending order of slot id, once, and
releases the storage. The result is the list afterwards and the calls made,
each free function with the data it was given. -/
def _dbus_data_slot_list_free (list : DBusDataSlotList) : DBusDataSlotList × List (Nat × Nat) :=
  (⟨[]⟩,
    list.slots.filterMap fun s =>
      if s.free_data_func = 0 then none else some (s.free_data_func, s.data))

/-- Modelled from the spec: the state of the slot allocator, whose code
(dbus-dataslot.c) is not among the sources: the tracking table of the slot ids
in use, each with its use-count. -/
structure DBusDataSlotAllocator where
  table : List (Nat × Nat)
  deriving DecidableEq, Repr

/-- Modelled from the spec: `_dbus_data_slot_allocator_init`: the allocator
starts with no slot id in use. -/
def _dbus_data_slot_allocator_init : DBusDataSlotAllocator :=
  ⟨[]⟩

/-- The lowest integer from `n` on that is not in `used`, searched over `fuel`
candidates. -/
def lowest_unused_from (used : List Nat) : Nat → Nat → Nat
  | 0, n => n
  | fuel + 1, n => if n ∈ used then lowest_unused_from used fuel (n + 1) else n

/-- The lowest integer that is not in `used`: one of the first
`used.length + 1` integers is free. -/
def lowest_unused (used : List Nat) : Nat :=
  lowest_unused_from used used.length 0

/-- Modelled from the spec: `_dbus_data_slot_allocator_alloc`, declared in
dbus-dataslot.h, whose code is not among the sources: it returns the lowest
integer id not in use and adds it to the tracking table. The declaration takes
no slot id, so every call allocates an id, with use-count 1. The lock is not
modelled: calls are taken one after the other. -/
def _dbus_data_slot_allocator_alloc (allocator : DBusDataSlotAllocator) :
    Nat × DBusDataSlotAllocator :=
  let slot := lowest_unused (allocator.table.map Prod.fst)
  (slot, ⟨allocator.table ++ [(slot, 1)]⟩)

/-- Modelled from the spec: `_dbus_data_slot_allocator_free`, declared in
dbus-dataslot.h, whose code is not among the sources: it decrements the
use-count of the id, which leaves the table of ids in use when the count
reaches zero. -/
def _dbus_data_slot_allocator_free (allocator : DBusDataSlotAllocator) (slot_id : Nat) :
    DBusDataSlotAllocator :=
  ⟨allocator.table.filterMap fun e =>
    if e.1 = slot_id then (if e.2 ≤ 1 then none else some (e.1, e.2 - 1)) else some e⟩

/-- The ids returned by `n` calls of `_dbus_data_slot_allocator_alloc` in a row,
and the allocator afterwards. -/
def alloc_n : Nat → DBusDataSlotAllocator → List Nat × DBusDataSlotAllocator
  | 0, allocator => ([], allocator)
  | n + 1, allocator =>
    ((_dbus_data_slot_allocator_alloc allocator).1 ::
        (alloc_n n (_dbus_data_slot_allocator_alloc allocator).2).1,
      (alloc_n n (_dbus_data_slot_allocator_alloc allocator).2).2)

/-- The allocator after `_dbus_data_slot_allocator_free` on each id of the
list, in order. -/
def free_all (allocator : DBusDataSlotAllocator) (ids : List Nat) : DBusDataSlotAllocator :=
  ids.foldl _dbus_data_slot_allocator_free allocator

/-- The number of bytes the `read` calls of a trace returned in all. -/
def bytes_received : List Syscall → Nat
  | [] => 0
  | Syscall.read _ _ _ ret :: cs => ret.toNat + bytes_received cs
  | _ :: cs => bytes_received cs

/-- A `read` call of the trace asked for bytes within a buffer of `size` bytes
(calls other than `read` pass). -/
def read_within_buffer (size : Nat) : Syscall → Bool
  | Syscall.read _ offset count _ => decide (offset + count ≤ size)
  | _ => true

/-! ## Theorems -/

/-- C1: `_dbus_credentials_match expected provided` is TRUE exactly when neither
uid is unknown (negative) and the provided uid is 0 or equals the expected uid;
the five rows of the credential match table follow. -/
theorem credentials_match_iff :
    (∀ expected provided : DBusCredentials,
      _dbus_credentials_match expected provided = true ↔
        (¬ expected.uid < 0 ∧ ¬ provided.uid < 0 ∧
          (provided.uid = 0 ∨ provided.uid = expected.uid))) ∧
    (∀ p g p' g' : Int,
      _dbus_credentials_match ⟨p, -1, g⟩ ⟨p', 7, g'⟩ = false ∧
      _dbus_credentials_match ⟨p, 7, g⟩ ⟨p', -1, g'⟩ = false ∧
      _dbus_credentials_match ⟨p, 5, g⟩ ⟨p', 6, g'⟩ = false ∧
      _dbus_credentials_match ⟨p, 9, g⟩ ⟨p', 0, g'⟩ = true ∧
      _dbus_credentials_match ⟨p, 5, g⟩ ⟨p', 5, g'⟩ = true) := by
  refine ⟨?_, ?_⟩
  · intro expected provided
    unfold _dbus_credentials_match
    split_ifs <;> simp_all
  · intro p g p' g'
    simp [_dbus_credentials_match]

/-! ### `read_ints` over well-behaved reads -/

theorem sixteen_le_two_pow (w : Nat) (hw : 4 ≤ w) : 16 ≤ 2 ^ w :=
  calc 16 = 2 ^ 4 := by norm_num
    _ ≤ 2 ^ w := Nat.pow_le_pow_right (by norm_num) hw

theorem to_size_t_of_lt (w : Nat) (v : Int) (h0 : 0 ≤ v) (h1 : v < (2 : Int) ^ w) :
    to_size_t w v = v.toNat := by
  unfold to_size_t
  rw [Int.emod_eq_of_lt h0 h1]

theorem read_ints_loop_in_range (w : Nat) (hw : 4 ≤ w) (fd : Int) :
    ∀ (reads : List ReadResult) (bytes : Nat) (buf : List Nat), bytes ≤ 8 →
      (∀ c ∈ (read_ints_loop w fd 2 reads bytes buf).calls, read_in_range c = true) →
      (read_ints_loop w fd 2 reads bytes buf).ret = true ∧
      (read_ints_loop w fd 2 reads bytes buf).n_ints_read =
        some (to_int (min 8 (bytes + bytes_before_eof reads) / sizeof_int)) := by
  have h16 : 16 ≤ 2 ^ w := sixteen_le_two_pow w hw
  have h16i : (16 : Int) ≤ (2 : Int) ^ w := by exact_mod_cast h16
  intro reads
  induction reads with
  | nil =>
    intro bytes buf hb _
    simp only [read_ints_loop, bytes_before_eof, sizeof_int]
    split_ifs with h
    · have e : min 8 (bytes + 0) = bytes := by omega
      rw [e]; simp [read_ints_done, sizeof_int]
    · have e : min 8 (bytes + 0) = bytes := by omega
      rw [e]; simp [read_ints_done, sizeof_int]
  | cons r rs ih =>
    intro bytes buf hb hc
    simp only [read_ints_loop, sizeof_int] at hc ⊢
    by_cases h8 : bytes ≥ 4 * 2
    · simp only [h8, if_true]
      have e : min 8 (bytes + bytes_before_eof (r :: rs)) = bytes := by omega
      rw [e]; simp [read_ints_done, sizeof_int]
    · simp only [h8, if_false] at hc ⊢
      have hlt : ¬ (to_size_t w r.ret < 0) := Nat.not_lt_zero _
      simp only [hlt, false_and, if_false] at hc ⊢
      have hcount : to_size_t w (((4 : Nat) : Int) * 2 - (bytes : Int)) = 8 - bytes := by
        rw [to_size_t_of_lt w _ (by omega) (by omega)]
        omega
      rw [hcount] at hc
      by_cases h0 : to_size_t w r.ret = 0
      · simp only [h0, if_true] at hc ⊢
        have hr := hc _ (List.mem_singleton.mpr rfl)
        simp only [read_in_range, decide_eq_true_eq] at hr
        have hret : r.ret = 0 := by
          rw [to_size_t_of_lt w _ hr.1 (by omega)] at h0
          omega
        have e : min 8 (bytes + bytes_before_eof (r :: rs)) = bytes := by
          simp only [bytes_before_eof, hret, if_true]; omega
        rw [e]; simp [read_ints_done, sizeof_int]
      · simp only [h0, if_false] at hc ⊢
        have hr := hc _ (List.mem_cons_self _ _)
        simp only [read_in_range, decide_eq_true_eq] at hr
        have hch : to_size_t w r.ret = r.ret.toNat := to_size_t_of_lt w _ hr.1 (by omega)
        rw [hch] at h0 hc ⊢
        have hmod : (bytes + r.ret.toNat) % 2 ^ w = bytes + r.ret.toNat :=
          Nat.mod_eq_of_lt (by omega)
        rw [hmod] at hc ⊢
        have hrec := ih (bytes + r.ret.toNat) (store_bytes buf bytes r.data) (by omega)
          (fun c hcm => hc c (List.mem_cons_of_mem _ hcm))
        have hne : r.ret ≠ 0 := by omega
        have e : bytes + bytes_before_eof (r :: rs) =
            bytes + r.ret.toNat + bytes_before_eof rs := by
          simp only [bytes_before_eof, hne, if_false]; omega
        rw [e]
        exact hrec

/-! ### The caller's branch of `_dbus_spawn_async` -/

/-- The caller's branch (`pipe` succeeded, first `fork` returned a pid > 0),
unfolded. -/
theorem spawn_async_parent (w : Nat) (argv : List String) (cs : Bool) (env : SpawnEnv)
    (hpipe : 0 ≤ env.pipe.ret) (hfork : 0 < env.fork.ret) :
    _dbus_spawn_async w argv cs env =
      if ¬ (read_ints w env.p0 (List.replicate (2 * sizeof_int) 0) 2 env.reads).ret then
        cleanup_and_fail env.fork.ret env.p0 (close_and_invalidate env.p1).1
          (wait_again env.fork.ret env.waits).2
          (read_ints w env.p0 (List.replicate (2 * sizeof_int) 0) 2 env.reads).error
          ([Syscall.pipe env.pipe env.p0 env.p1, Syscall.fd_set_close_on_exec env.p0,
              Syscall.fd_set_close_on_exec env.p1, Syscall.fork env.fork] ++
            (close_and_invalidate env.p1).2 ++ (wait_again env.fork.ret env.waits).1 ++
            (read_ints w env.p0 (List.replicate (2 * sizeof_int) 0) 2 env.reads).calls)
      else if (read_ints w env.p0 (List.replicate (2 * sizeof_int) 0) 2
          env.reads).n_ints_read.getD 0 ≥ 2 then
        cleanup_and_fail env.fork.ret env.p0 (close_and_invalidate env.p1).1
          (wait_again env.fork.ret env.waits).2
          (dbus_set_error ErrorName.DBUS_ERROR_SPAWN_FAILED
            "Unknown error executing child process \"%s\"" [FormatArg.str (argv.headD "")])
          ([Syscall.pipe env.pipe env.p0 env.p1, Syscall.fd_set_close_on_exec env.p0,
              Syscall.fd_set_close_on_exec env.p1, Syscall.fork env.fork] ++
            (close_and_invalidate env.p1).2 ++ (wait_again env.fork.ret env.waits).1 ++
            (read_ints w env.p0 (List.replicate (2 * sizeof_int) 0) 2 env.reads).calls)
      else
        { outcome := SpawnOutcome.returned true, error := none,
          child_err_report_pipe :=
            ((close_and_invalidate env.p0).1, (close_and_invalidate env.p1).1),
          trace := [Syscall.pipe env.pipe env.p0 env.p1, Syscall.fd_set_close_on_exec env.p0,
              Syscall.fd_set_close_on_exec env.p1, Syscall.fork env.fork] ++
            (close_and_invalidate env.p1).2 ++ (wait_again env.fork.ret env.waits).1 ++
            (read_ints w env.p0 (List.replicate (2 * sizeof_int) 0) 2 env.reads).calls ++
            (close_and_invalidate env.p0).2 } := by
  have h1 : ¬ env.pipe.ret < 0 := by omega
  have h2 : ¬ env.fork.ret < 0 := by omega
  have h3 : ¬ env.fork.ret = 0 := by omega
  simp only [_dbus_spawn_async, make_pipe, h1, h2, h3, if_false, not_true_eq_false,
    List.cons_append, List.nil_append, List.append_assoc]

/-- The `read` calls of the caller are part of the trace of `_dbus_spawn_async`. -/
theorem read_calls_mem_trace (w : Nat) (argv : List String) (cs : Bool) (env : SpawnEnv)
    (hpipe : 0 ≤ env.pipe.ret) (hfork : 0 < env.fork.ret) (c : Syscall)
    (hc : c ∈ (read_ints w env.p0 (List.replicate (2 * sizeof_int) 0) 2 env.reads).calls) :
    c ∈ (_dbus_spawn_async w argv cs env).trace := by
  rw [spawn_async_parent w argv cs env hpipe hfork]
  split_ifs <;> simp [cleanup_and_fail, hc]

theorem to_int_small (n : Nat) (h : n < 2 ^ 31) : to_int n = n := by
  unfold to_int
  have e : n % 2 ^ 32 = n := Nat.mod_eq_of_lt (by omega)
  rw [e, if_pos h]

/-- Over well-behaved reads the caller's branch fails with the fixed error of a
child report when 8 bytes arrived before end of file, and succeeds otherwise. -/
theorem spawn_async_parent_in_range (w : Nat) (hw : 4 ≤ w) (argv : List String) (cs : Bool)
    (env : SpawnEnv) (hpipe : 0 ≤ env.pipe.ret) (hfork : 0 < env.fork.ret)
    (hreads : ∀ c ∈ (read_ints w env.p0 (List.replicate (2 * sizeof_int) 0) 2 env.reads).calls,
      read_in_range c = true) :
    ((_dbus_spawn_async w argv cs env).outcome, (_dbus_spawn_async w argv cs env).error) =
      if 2 * sizeof_int ≤ bytes_before_eof env.reads then
        (SpawnOutcome.returned false,
          dbus_set_error ErrorName.DBUS_ERROR_SPAWN_FAILED
            "Unknown error executing child process \"%s\"" [FormatArg.str (argv.headD "")])
      else (SpawnOutcome.returned true, none) := by
  have hl := read_ints_loop_in_range w hw env.p0 env.reads 0 (List.replicate (2 * sizeof_int) 0)
    (by omega) hreads
  rw [spawn_async_parent w argv cs env hpipe hfork]
  have hret : (read_ints w env.p0 (List.replicate (2 * sizeof_int) 0) 2 env.reads).ret = true :=
    hl.1
  have hn : (read_ints w env.p0 (List.replicate (2 * sizeof_int) 0) 2 env.reads).n_ints_read =
      some (to_int (min 8 (0 + bytes_before_eof env.reads) / sizeof_int)) := hl.2
  rw [hret, hn]
  simp only [sizeof_int, Nat.zero_add, Option.getD_some]
  rw [to_int_small _ (by omega)]
  by_cases h : 2 * 4 ≤ bytes_before_eof env.reads
  · have e : min 8 (bytes_before_eof env.reads) / 4 = 2 := by omega
    rw [e]
    simp [h, cleanup_and_fail]
  · have e : min 8 (bytes_before_eof env.reads) / 4 = 0 ∨
        min 8 (bytes_before_eof env.reads) / 4 = 1 := by omega
    rcases e with e | e <;> rw [e] <;> simp [h]

/-- Reads that return positive counts adding up to the room left in the
two-int buffer are all within the request. -/
theorem read_ints_loop_calls_in_range (w : Nat) (hw : 4 ≤ w) (fd : Int) :
    ∀ (reads : List ReadResult) (bytes : Nat) (buf : List Nat),
      (∀ r ∈ reads, 0 < r.ret) →
      bytes + (reads.map fun r => r.ret.toNat).sum = 8 →
      (∀ c ∈ (read_ints_loop w fd 2 reads bytes buf).calls, read_in_range c = true) ∧
      bytes_before_eof reads = (reads.map fun r => r.ret.toNat).sum := by
  have h16 : 16 ≤ 2 ^ w := sixteen_le_two_pow w hw
  have h16i : (16 : Int) ≤ (2 : Int) ^ w := by exact_mod_cast h16
  intro reads
  induction reads with
  | nil =>
    intro bytes buf _ hsum
    simp only [List.map_nil, List.sum_nil, Nat.add_zero] at hsum
    subst hsum
    simp [read_ints_loop, read_ints_done, sizeof_int, bytes_before_eof]
  | cons r rs ih =>
    intro bytes buf hpos hsum
    simp only [List.map_cons, List.sum_cons] at hsum ⊢
    have hr : 0 < r.ret := hpos r (List.mem_cons_self _ _)
    have h8 : ¬ bytes ≥ 4 * 2 := by omega
    have hlt : ¬ (to_size_t w r.ret < 0) := Nat.not_lt_zero _
    have hcount : to_size_t w (((4 : Nat) : Int) * 2 - (bytes : Int)) = 8 - bytes := by
      rw [to_size_t_of_lt w _ (by omega) (by omega)]
      omega
    have hch : to_size_t w r.ret = r.ret.toNat := to_size_t_of_lt w _ (by omega) (by omega)
    have h0 : ¬ r.ret.toNat = 0 := by omega
    have hmod : (bytes + r.ret.toNat) % 2 ^ w = bytes + r.ret.toNat :=
      Nat.mod_eq_of_lt (by omega)
    have hrec := ih (bytes + r.ret.toNat) (store_bytes buf bytes r.data)
      (fun r' hr' => hpos r' (List.mem_cons_of_mem _ hr')) (by omega)
    have hne : r.ret ≠ 0 := by omega
    refine ⟨?_, ?_⟩
    · simp only [read_ints_loop, sizeof_int, h8, if_false, hlt, false_and, hcount, hch, h0,
        hmod]
      intro c hc
      rcases List.mem_cons.mp hc with hc | hc
      · subst hc
        simp only [read_in_range, decide_eq_true_eq]
        omega
      · exact hrec.1 c hc
    · simp only [bytes_before_eof, hne, if_false]
      rw [hrec.2]

theorem flatMap_data_length (reads : List ReadResult)
    (h : ∀ r ∈ reads, 0 < r.ret ∧ (r.data.length : Int) = r.ret) :
    (reads.flatMap fun r => r.data).length = (reads.map fun r => r.ret.toNat).sum := by
  induction reads with
  | nil => rfl
  | cons r rs ih =>
    have hr := h r (List.mem_cons_self _ _)
    have hrs := ih (fun r' hr' => h r' (List.mem_cons_of_mem _ hr'))
    simp only [List.flatMap_cons, List.length_append, List.map_cons, List.sum_cons, hrs]
    omega

/-- C2: in the caller's branch of `_dbus_spawn_async`, when every read on the
reporting pipe returns 0 or a count between 1 and the number of bytes requested,
the call returns FALSE exactly when at least `2 * sizeof (int)` bytes (one
complete two-integer record) arrived before end of file, and TRUE otherwise. -/
theorem spawn_async_fails_iff_complete_record (w : Nat) (hw : 4 ≤ w) (argv : List String)
    (cs : Bool) (env : SpawnEnv) (hpipe : 0 ≤ env.pipe.ret) (hfork : 0 < env.fork.ret)
    (hreads : ∀ c ∈ (_dbus_spawn_async w argv cs env).trace, read_in_range c = true) :
    ((_dbus_spawn_async w argv cs env).outcome = SpawnOutcome.returned false ↔
      2 * sizeof_int ≤ bytes_before_eof env.reads) ∧
    ((_dbus_spawn_async w argv cs env).outcome = SpawnOutcome.returned true ↔
      ¬ 2 * sizeof_int ≤ bytes_before_eof env.reads) := by
  have h := spawn_async_parent_in_range w hw argv cs env hpipe hfork
    (fun c hc => hreads c (read_calls_mem_trace w argv cs env hpipe hfork c hc))
  have ho := congrArg Prod.fst h
  simp only at ho
  rw [ho]
  by_cases hb : 2 * sizeof_int ≤ bytes_before_eof env.reads <;> simp [hb]

/-- C2, at a run where the record arrives in two reads of four bytes. -/
theorem spawn_async_fails_iff_complete_record_witness :
    (_dbus_spawn_async 64 ["/nonexistent/binary"] false
        (caller_env [⟨4, 0, [1, 0, 0, 0]⟩, ⟨4, 0, [2, 0, 0, 0]⟩])).outcome =
      SpawnOutcome.returned false ↔
      2 * sizeof_int ≤ bytes_before_eof [⟨4, 0, [1, 0, 0, 0]⟩, ⟨4, 0, [2, 0, 0, 0]⟩] :=
  (spawn_async_fails_iff_complete_record 64 (by decide) ["/nonexistent/binary"] false
    (caller_env [⟨4, 0, [1, 0, 0, 0]⟩, ⟨4, 0, [2, 0, 0, 0]⟩])
    (by decide) (by decide) (by decide)).1

/-- C3, refuted as stated: after a failed exec of a nonexistent binary (record
`CHILD_EXEC_FAILED`, `ENOENT`) the failure returned is the error "Unknown error
executing child process" naming `argv[0]` only, and no function of the returned
failure gives back the stage tag and error number of every record. -/
theorem spawn_async_record_not_embedded :
    ((_dbus_spawn_async 64 ["/nonexistent/binary"] false
        (caller_env [record_read CHILD_EXEC_FAILED ENOENT])).outcome,
      (_dbus_spawn_async 64 ["/nonexistent/binary"] false
        (caller_env [record_read CHILD_EXEC_FAILED ENOENT])).error) =
      (SpawnOutcome.returned false,
        some ⟨ErrorName.DBUS_ERROR_SPAWN_FAILED,
          "Unknown error executing child process \"%s\"",
          [FormatArg.str "/nonexistent/binary"]⟩) ∧
    ¬ ∃ decode : SpawnOutcome × Option DBusError → Int × Int,
      ∀ stage en : Int,
        decode
          ((_dbus_spawn_async 64 ["/nonexistent/binary"] false
              (caller_env [record_read stage en])).outcome,
            (_dbus_spawn_async 64 ["/nonexistent/binary"] false
              (caller_env [record_read stage en])).error) = (stage, en) := by
  refine ⟨by decide, ?_⟩
  rintro ⟨decode, h⟩
  have h1 := h CHILD_EXEC_FAILED ENOENT
  have h2 := h CHILD_FORK_FAILED EAGAIN
  have e : ((_dbus_spawn_async 64 ["/nonexistent/binary"] false
        (caller_env [record_read CHILD_EXEC_FAILED ENOENT])).outcome,
      (_dbus_spawn_async 64 ["/nonexistent/binary"] false
        (caller_env [record_read CHILD_EXEC_FAILED ENOENT])).error) =
      ((_dbus_spawn_async 64 ["/nonexistent/binary"] false
        (caller_env [record_read CHILD_FORK_FAILED EAGAIN])).outcome,
      (_dbus_spawn_async 64 ["/nonexistent/binary"] false
        (caller_env [record_read CHILD_FORK_FAILED EAGAIN])).error) := by decide
  rw [e, h2] at h1
  exact absurd h1 (by decide)

/-- C3, amended: for every record (stage, errno) delivered on the reporting
pipe, in reads of positive counts, `_dbus_spawn_async` returns FALSE with the
error `DBUS_ERROR_SPAWN_FAILED`, "Unknown error executing child process",
naming `argv[0]`: the same failure for every stage tag and error number. -/
theorem spawn_async_child_report_error (w : Nat) (hw : 4 ≤ w) (argv : List String)
    (cs : Bool) (env : SpawnEnv) (stage en : Int)
    (hpipe : 0 ≤ env.pipe.ret) (hfork : 0 < env.fork.ret)
    (hdeliv : ∀ r ∈ env.reads, 0 < r.ret ∧ (r.data.length : Int) = r.ret)
    (hrec : (env.reads.flatMap fun r => r.data) = int_bytes stage ++ int_bytes en) :
    (_dbus_spawn_async w argv cs env).outcome = SpawnOutcome.returned false ∧
    (_dbus_spawn_async w argv cs env).error =
      some ⟨ErrorName.DBUS_ERROR_SPAWN_FAILED,
        "Unknown error executing child process \"%s\"", [FormatArg.str (argv.headD "")]⟩ := by
  have hlen := flatMap_data_length env.reads hdeliv
  rw [hrec] at hlen
  have h8 : (env.reads.map fun r => r.ret.toNat).sum = 8 := by
    rw [← hlen]; simp [int_bytes]
  have hin := read_ints_loop_calls_in_range w hw env.p0 env.reads 0
    (List.replicate (2 * sizeof_int) 0) (fun r hr => (hdeliv r hr).1) (by omega)
  have h := spawn_async_parent_in_range w hw argv cs env hpipe hfork hin.1
  rw [hin.2, h8] at h
  simp only [sizeof_int, le_refl, if_true, Prod.mk.injEq] at h
  exact ⟨h.1, by rw [h.2]; rfl⟩

/-- C3 amended, at the record of a failed exec delivered in two reads. -/
theorem spawn_async_child_report_error_witness :
    (_dbus_spawn_async 64 ["/nonexistent/binary"] false
        (caller_env [⟨4, 0, [1, 0, 0, 0]⟩, ⟨4, 0, [2, 0, 0, 0]⟩])).error =
      some ⟨ErrorName.DBUS_ERROR_SPAWN_FAILED,
        "Unknown error executing child process \"%s\"",
        [FormatArg.str "/nonexistent/binary"]⟩ :=
  (spawn_async_child_report_error 64 (by decide) ["/nonexistent/binary"] false
    (caller_env [⟨4, 0, [1, 0, 0, 0]⟩, ⟨4, 0, [2, 0, 0, 0]⟩])
    CHILD_EXEC_FAILED ENOENT (by decide) (by decide) (by decide) (by decide)).2

/-- C4, the code at a failed read: the first read on the pipe returns -1 with
`EIO`. Stored in the `size_t` variable `chunk`, -1 is `2 ^ 64 - 1`, neither test
`chunk < 0` holds, and `read_ints` returns TRUE with no error set and
`*n_ints_read = -1`; `_dbus_spawn_async` then returns TRUE with no error. With
a `size_t` of 32 bits `read_ints` returns TRUE as well, with
`*n_ints_read = 1073741823`. -/
theorem read_ints_read_error_not_reported :
    to_size_t 64 (-1) = 2 ^ 64 - 1 ∧
    (read_ints 64 3 (List.replicate 8 0) 2 [⟨-1, EIO, []⟩]).ret = true ∧
    (read_ints 64 3 (List.replicate 8 0) 2 [⟨-1, EIO, []⟩]).error = none ∧
    (read_ints 64 3 (List.replicate 8 0) 2 [⟨-1, EIO, []⟩]).n_ints_read = some (-1) ∧
    (_dbus_spawn_async 64 ["/bin/true"] false (caller_env [⟨-1, EIO, []⟩])).outcome =
      SpawnOutcome.returned true ∧
    (_dbus_spawn_async 64 ["/bin/true"] false (caller_env [⟨-1, EIO, []⟩])).error = none ∧
    (read_ints 32 3 (List.replicate 8 0) 2 [⟨-1, EIO, []⟩]).ret = true ∧
    (read_ints 32 3 (List.replicate 8 0) 2 [⟨-1, EIO, []⟩]).error = none ∧
    (read_ints 32 3 (List.replicate 8 0) 2 [⟨-1, EIO, []⟩]).n_ints_read =
      some 1073741823 := by
  refine ⟨by decide, by decide, by decide, by decide, by decide, by decide, by decide,
    by decide, by decide⟩

/-- C5, the code at an interrupted read: over the pipe that delivers the record
(1, 2) in one read, `read_ints` stores the record and `*n_ints_read = 2`; when
one read interrupted by a signal (-1 with `EINTR`) comes first, the read is not
repeated, the buffer is left as it was and `*n_ints_read = -1`. -/
theorem read_ints_interrupted_differs :
    (read_ints 64 3 (List.replicate 8 0) 2 [record_read 1 2]).ret = true ∧
    (read_ints 64 3 (List.replicate 8 0) 2 [record_read 1 2]).buf = [1, 0, 0, 0, 2, 0, 0, 0] ∧
    (read_ints 64 3 (List.replicate 8 0) 2 [record_read 1 2]).n_ints_read = some 2 ∧
    (read_ints 64 3 (List.replicate 8 0) 2 [⟨-1, EINTR, []⟩, record_read 1 2]).ret = true ∧
    (read_ints 64 3 (List.replicate 8 0) 2 [⟨-1, EINTR, []⟩, record_read 1 2]).buf =
      [0, 0, 0, 0, 0, 0, 0, 0] ∧
    (read_ints 64 3 (List.replicate 8 0) 2 [⟨-1, EINTR, []⟩, record_read 1 2]).n_ints_read =
      some (-1) ∧
    (read_ints 64 3 (List.replicate 8 0) 2 [⟨-1, EINTR, []⟩, record_read 1 2]).calls =
      [Syscall.read 3 0 8 (-1)] := by
  refine ⟨by decide, by decide, by decide, by decide, by decide, by decide, by decide⟩

/-- C6: in the caller's branch the value `_dbus_spawn_async` returns and the
error it sets are the same for every two sequences of `waitpid` outcomes
(success, failure with `ECHILD`, failure with another error), the outcomes of
the reads on the reporting pipe being the same. -/
theorem spawn_async_result_independent_of_waitpid (w : Nat) (argv : List String) (cs : Bool)
    (env : SpawnEnv) (waits' : List SysResult)
    (hpipe : 0 ≤ env.pipe.ret) (hfork : 0 < env.fork.ret) :
    (_dbus_spawn_async w argv cs { env with waits := waits' }).outcome =
      (_dbus_spawn_async w argv cs env).outcome ∧
    (_dbus_spawn_async w argv cs { env with waits := waits' }).error =
      (_dbus_spawn_async w argv cs env).error := by
  rw [spawn_async_parent w argv cs env hpipe hfork,
    spawn_async_parent w argv cs { env with waits := waits' } hpipe hfork]
  simp only
  split_ifs <;> simp [cleanup_and_fail]

/-- C6, at a child report read while `waitpid` succeeds, fails with `ECHILD`, or
fails with `EIO`. -/
theorem spawn_async_result_independent_of_waitpid_witness :
    ((_dbus_spawn_async 64 ["/nonexistent/binary"] false
        { caller_env [record_read 1 2] with waits := [⟨-1, ECHILD⟩] }).outcome =
      (_dbus_spawn_async 64 ["/nonexistent/binary"] false
        (caller_env [record_read 1 2])).outcome) ∧
    ((_dbus_spawn_async 64 ["/nonexistent/binary"] false
        { caller_env [record_read 1 2] with waits := [⟨-1, EIO⟩] }).outcome =
      (_dbus_spawn_async 64 ["/nonexistent/binary"] false
        (caller_env [record_read 1 2])).outcome) :=
  ⟨(spawn_async_result_independent_of_waitpid 64 ["/nonexistent/binary"] false
      (caller_env [record_read 1 2]) [⟨-1, ECHILD⟩] (by decide) (by decide)).1,
    (spawn_async_result_independent_of_waitpid 64 ["/nonexistent/binary"] false
      (caller_env [record_read 1 2]) [⟨-1, EIO⟩] (by decide) (by decide)).1⟩

/-- C7, the code at a failed first fork: `pipe ()` stored the descriptors
(3, 4) and `fork ()` fails with `EAGAIN`. `_dbus_spawn_async` returns FALSE with
the fork-failed error, having made no `close` call: both descriptors of the
pipe are still open and still held in `child_err_report_pipe`. -/
theorem spawn_async_fork_failure_leaves_pipe_open :
    (_dbus_spawn_async 64 ["/bin/true"] false
        { caller_env [] with fork := ⟨-1, EAGAIN⟩ }).outcome = SpawnOutcome.returned false ∧
    (_dbus_spawn_async 64 ["/bin/true"] false
        { caller_env [] with fork := ⟨-1, EAGAIN⟩ }).error =
      some ⟨ErrorName.DBUS_ERROR_SPAWN_FORK_FAILED, "Failed to fork (%s)",
        [FormatArg.errno_to_string EAGAIN]⟩ ∧
    (_dbus_spawn_async 64 ["/bin/true"] false
        { caller_env [] with fork := ⟨-1, EAGAIN⟩ }).trace =
      [Syscall.pipe ⟨0, 0⟩ 3 4, Syscall.fd_set_close_on_exec 3,
        Syscall.fd_set_close_on_exec 4, Syscall.fork ⟨-1, EAGAIN⟩] ∧
    open_pipe_fds (_dbus_spawn_async 64 ["/bin/true"] false
        { caller_env [] with fork := ⟨-1, EAGAIN⟩ }).trace = [3, 4] ∧
    (_dbus_spawn_async 64 ["/bin/true"] false
        { caller_env [] with fork := ⟨-1, EAGAIN⟩ }).child_err_report_pipe = (3, 4) := by
  refine ⟨by decide, by decide, by decide, by decide, by decide⟩

/-! ### Descriptors and reaping in the caller's branch -/

theorem wait_again_no_close (pid : Int) (fd : Int) :
    ∀ waits : List SysResult, Syscall.close fd ∉ (wait_again pid waits).1 := by
  intro waits
  induction waits with
  | nil => simp [wait_again]
  | cons r rs ih =>
    simp only [wait_again]
    split_ifs <;> simp [ih]

theorem wait_again_calls_waitpid (pid : Int) :
    ∀ waits : List SysResult, ∃ res, Syscall.waitpid pid res ∈ (wait_again pid waits).1 := by
  intro waits
  cases waits with
  | nil => exact ⟨⟨-1, ECHILD⟩, by simp [wait_again]⟩
  | cons r rs =>
    refine ⟨r, ?_⟩
    simp only [wait_again]
    split_ifs <;> simp

theorem read_ints_loop_no_close (w : Nat) (fd : Int) (n : Int) (fd' : Int) :
    ∀ (reads : List ReadResult) (bytes : Nat) (buf : List Nat),
      Syscall.close fd' ∉ (read_ints_loop w fd n reads bytes buf).calls := by
  intro reads
  induction reads with
  | nil =>
    intro bytes buf
    simp only [read_ints_loop]
    split_ifs <;> simp [read_ints_done]
  | cons r rs ih =>
    intro bytes buf
    simp only [read_ints_loop]
    split_ifs <;> simp [read_ints_done, ih]

/-- C8: on every return of `_dbus_spawn_async` in the caller after a successful
first fork, whatever the reads and `waitpid` calls gave, the call returned to
its caller, `close` was called exactly once on each of the two descriptors of
the reporting pipe, both entries of `child_err_report_pipe` are invalidated,
and `waitpid` was called on the first child. -/
theorem spawn_async_caller_closes_and_reaps (w : Nat) (argv : List String) (cs : Bool)
    (env : SpawnEnv) (hpipe : 0 ≤ env.pipe.ret) (hfork : 0 < env.fork.ret)
    (hp0 : 0 ≤ env.p0) (hp1 : 0 ≤ env.p1) (hne : env.p0 ≠ env.p1) :
    (∃ b, (_dbus_spawn_async w argv cs env).outcome = SpawnOutcome.returned b) ∧
    (_dbus_spawn_async w argv cs env).trace.count (Syscall.close env.p0) = 1 ∧
    (_dbus_spawn_async w argv cs env).trace.count (Syscall.close env.p1) = 1 ∧
    (_dbus_spawn_async w argv cs env).child_err_report_pipe = (-1, -1) ∧
    (∃ res, Syscall.waitpid env.fork.ret res ∈ (_dbus_spawn_async w argv cs env).trace) := by
  have hw0 := List.count_eq_zero_of_not_mem
    (wait_again_no_close env.fork.ret env.p0 env.waits)
  have hw1 := List.count_eq_zero_of_not_mem
    (wait_again_no_close env.fork.ret env.p1 env.waits)
  have hv0 := List.count_eq_zero_of_not_mem
    (wait_again_no_close env.fork.ret env.p0 (wait_again env.fork.ret env.waits).2)
  have hv1 := List.count_eq_zero_of_not_mem
    (wait_again_no_close env.fork.ret env.p1 (wait_again env.fork.ret env.waits).2)
  have hr0 := List.count_eq_zero_of_not_mem
    (read_ints_loop_no_close w env.p0 2 env.p0 env.reads 0 (List.replicate (2 * sizeof_int) 0))
  have hr1 := List.count_eq_zero_of_not_mem
    (read_ints_loop_no_close w env.p0 2 env.p1 env.reads 0 (List.replicate (2 * sizeof_int) 0))
  obtain ⟨res, hres⟩ := wait_again_calls_waitpid env.fork.ret env.waits
  have h0 : ¬ env.p0 < 0 := by omega
  have h1 : ¬ env.p1 < 0 := by omega
  have hne' : env.p1 ≠ env.p0 := fun h => hne h.symm
  rw [spawn_async_parent w argv cs env hpipe hfork]
  unfold read_ints at *
  refine ⟨?_, ?_, ?_, ?_, ⟨res, ?_⟩⟩ <;> split_ifs <;>
    simp [cleanup_and_fail, close_and_invalidate, h0, h1, hfork, List.count_append,
      List.count_cons, hw0, hw1, hv0, hv1, hr0, hr1, hne, hne', hres]

/-- C8, at a caller whose child reports a failed exec. -/
theorem spawn_async_caller_closes_and_reaps_witness :
    (_dbus_spawn_async 64 ["/nonexistent/binary"] false
        (caller_env [record_read 1 2])).trace.count (Syscall.close 3) = 1 ∧
    (_dbus_spawn_async 64 ["/nonexistent/binary"] false
        (caller_env [record_read 1 2])).trace.count (Syscall.close 4) = 1 :=
  ⟨(spawn_async_caller_closes_and_reaps 64 ["/nonexistent/binary"] false
      (caller_env [record_read 1 2]) (by decide) (by decide) (by decide) (by decide)
      (by decide)).2.1,
    (spawn_async_caller_closes_and_reaps 64 ["/nonexistent/binary"] false
      (caller_env [record_read 1 2]) (by decide) (by decide) (by decide) (by decide)
      (by decide)).2.2.1⟩

/-! ### Sockets -/

/-- C9: for each of `_dbus_connect_unix_socket`, `_dbus_listen_unix_socket`,
`_dbus_connect_tcp_socket` and `_dbus_listen_tcp_socket`, a returned descriptor
`>= 0` has had the non-blocking step applied to it with success, and when the
socket was created, the steps before the non-blocking step succeed and that
step fails, the call returns -1 after closing the descriptor it created. -/
theorem socket_functions_nonblocking_or_closed (max_sun_path_length : Nat) (path : List Nat)
    (host : Option String) (port : Nat) (env : SockEnv) :
    ((0 ≤ (_dbus_connect_unix_socket max_sun_path_length path env).ret →
        SockCall.set_fd_nonblocking (_dbus_connect_unix_socket max_sun_path_length path env).ret
          true ∈ (_dbus_connect_unix_socket max_sun_path_length path env).trace) ∧
      (0 ≤ env.socket.ret → 0 ≤ env.connect.ret → env.set_fd_nonblocking = false →
        (_dbus_connect_unix_socket max_sun_path_length path env).ret = -1 ∧
        SockCall.close env.socket.ret ∈
          (_dbus_connect_unix_socket max_sun_path_length path env).trace)) ∧
    ((0 ≤ (_dbus_listen_unix_socket max_sun_path_length path env).ret →
        SockCall.set_fd_nonblocking (_dbus_listen_unix_socket max_sun_path_length path env).ret
          true ∈ (_dbus_listen_unix_socket max_sun_path_length path env).trace) ∧
      (0 ≤ env.socket.ret → 0 ≤ env.bind.ret → 0 ≤ env.listen.ret →
        env.set_fd_nonblocking = false →
        (_dbus_listen_unix_socket max_sun_path_length path env).ret = -1 ∧
        SockCall.close env.socket.ret ∈
          (_dbus_listen_unix_socket max_sun_path_length path env).trace)) ∧
    ((0 ≤ (_dbus_connect_tcp_socket host port env).ret →
        SockCall.set_fd_nonblocking (_dbus_connect_tcp_socket host port env).ret true ∈
          (_dbus_connect_tcp_socket host port env).trace) ∧
      (0 ≤ env.socket.ret → env.host_addr ≠ none → 0 ≤ env.connect.ret →
        env.set_fd_nonblocking = false →
        (_dbus_connect_tcp_socket host port env).ret = -1 ∧
        SockCall.close env.socket.ret ∈ (_dbus_connect_tcp_socket host port env).trace)) ∧
    ((0 ≤ (_dbus_listen_tcp_socket host port env).ret →
        SockCall.set_fd_nonblocking (_dbus_listen_tcp_socket host port env).ret true ∈
          (_dbus_listen_tcp_socket host port env).trace) ∧
      (0 ≤ env.socket.ret → env.host_addr ≠ none → env.bind.ret = 0 → 0 ≤ env.listen.ret →
        env.set_fd_nonblocking = false →
        (_dbus_listen_tcp_socket host port env).ret = -1 ∧
        SockCall.close env.socket.ret ∈ (_dbus_listen_tcp_socket host port env).trace)) := by
  refine ⟨⟨?_, ?_⟩, ⟨?_, ?_⟩, ⟨?_, ?_⟩, ⟨?_, ?_⟩⟩
  · by_cases h1 : env.socket.ret < 0 <;> by_cases h2 : env.connect.ret < 0 <;>
      by_cases h3 : env.set_fd_nonblocking = true <;>
      simp [_dbus_connect_unix_socket, h1, h2, h3]
  · intro h1 h2 h3
    have h1' : ¬ env.socket.ret < 0 := by omega
    have h2' : ¬ env.connect.ret < 0 := by omega
    simp [_dbus_connect_unix_socket, h1', h2', h3]
  · by_cases h1 : env.socket.ret < 0 <;> by_cases h2 : env.bind.ret < 0 <;>
      by_cases h3 : env.listen.ret < 0 <;> by_cases h4 : env.set_fd_nonblocking = true <;>
      simp [_dbus_listen_unix_socket, h1, h2, h3, h4]
  · intro h1 h2 h3 h4
    have h1' : ¬ env.socket.ret < 0 := by omega
    have h2' : ¬ env.bind.ret < 0 := by omega
    have h3' : ¬ env.listen.ret < 0 := by omega
    simp [_dbus_listen_unix_socket, h1', h2', h3', h4]
  · cases hh : env.host_addr <;> by_cases h1 : env.socket.ret < 0 <;>
      by_cases h2 : env.connect.ret < 0 <;> by_cases h3 : env.set_fd_nonblocking = true <;>
      simp [_dbus_connect_tcp_socket, hh, h1, h2, h3]
  · intro h1 h2 h3 h4
    have h1' : ¬ env.socket.ret < 0 := by omega
    have h3' : ¬ env.connect.ret < 0 := by omega
    obtain ⟨a, ha⟩ := Option.ne_none_iff_exists'.mp h2
    simp [_dbus_connect_tcp_socket, h1', ha, h3', h4]
  · cases hh : env.host_addr <;> by_cases h1 : env.socket.ret < 0 <;>
      by_cases h2 : env.bind.ret = 0 <;> by_cases h3 : env.listen.ret < 0 <;>
      by_cases h4 : env.set_fd_nonblocking = true <;>
      simp [_dbus_listen_tcp_socket, hh, h1, h2, h3, h4]
  · intro h1 h2 h3 h4 h5
    have h1' : ¬ env.socket.ret < 0 := by omega
    have h4' : ¬ env.listen.ret < 0 := by omega
    obtain ⟨a, ha⟩ := Option.ne_none_iff_exists'.mp h2
    simp [_dbus_listen_tcp_socket, h1', ha, h3, h4', h5]

/-- C9, at a connect that returns descriptor 5 and at a listen whose
non-blocking step fails. -/
theorem socket_functions_nonblocking_or_closed_witness :
    SockCall.set_fd_nonblocking 5 true ∈
      (_dbus_connect_unix_socket 99 [47, 120] sock_env_ok).trace ∧
    ((_dbus_listen_tcp_socket none 4000 { sock_env_ok with set_fd_nonblocking := false }).ret
        = -1 ∧
      SockCall.close 5 ∈
        (_dbus_listen_tcp_socket none 4000
          { sock_env_ok with set_fd_nonblocking := false }).trace) :=
  ⟨(socket_functions_nonblocking_or_closed 99 [47, 120] none 4000 sock_env_ok).1.1
      (by decide),
    (socket_functions_nonblocking_or_closed 99 [47, 120] none 4000
      { sock_env_ok with set_fd_nonblocking := false }).2.2.2.2
      (by decide) (by decide) (by decide) (by decide) (by decide)⟩

/-- C10, refuted as stated: when `accept` on listener 3 gives descriptor 7,
`_dbus_accept` returns 7 having made that one call only; the non-blocking step
was not applied to 7, which is in blocking mode when returned. -/
theorem accept_returns_blocking_descriptor :
    (_dbus_accept 3 [⟨7, 0⟩]).1 = 7 ∧
    (_dbus_accept 3 [⟨7, 0⟩]).2 = [SockCall.accept 3 ⟨7, 0⟩] ∧
    fd_nonblocking (_dbus_accept 3 [⟨7, 0⟩]).2 7 = false := by
  refine ⟨by decide, by decide, by decide⟩

theorem accept_calls_only_accept (listen_fd : Int) :
    ∀ (accepts : List SysResult), ∀ c ∈ (_dbus_accept listen_fd accepts).2,
      ∃ res, c = SockCall.accept listen_fd res := by
  intro accepts
  induction accepts with
  | nil => simp [_dbus_accept]
  | cons r rs ih =>
    simp only [_dbus_accept]
    split_ifs
    · intro c hc
      rcases List.mem_cons.mp hc with hc | hc
      · exact ⟨r, hc⟩
      · exact ih c hc
    · simp
    · simp

/-- C10, amended: `_dbus_accept` makes `accept` calls only and never applies the
non-blocking step, so no descriptor is in non-blocking mode through it: a
descriptor it returns is in the mode `accept` created it in. -/
theorem accept_never_sets_nonblocking (listen_fd : Int) (accepts : List SysResult) (fd : Int) :
    (∀ c ∈ (_dbus_accept listen_fd accepts).2, ∃ res, c = SockCall.accept listen_fd res) ∧
    fd_nonblocking (_dbus_accept listen_fd accepts).2 fd = false := by
  refine ⟨accept_calls_only_accept listen_fd accepts, ?_⟩
  simp only [fd_nonblocking, decide_eq_false_iff_not]
  intro h
  obtain ⟨res, hres⟩ := accept_calls_only_accept listen_fd accepts _ h
  exact absurd hres (by simp)

/-- C11, the code at a failed host lookup: `socket ()` gives descriptor 5 and
`gethostbyname` returns NULL. `_dbus_connect_tcp_socket` and
`_dbus_listen_tcp_socket` return -1 after the two calls `socket` and
`gethostbyname`, without closing descriptor 5; on the neighbouring path of a
failed `connect` the descriptor is closed. -/
theorem tcp_socket_host_failure_leaks_descriptor :
    (_dbus_connect_tcp_socket (some "nohost.invalid") 4000
        { sock_env_ok with host_addr := none, host_errno := ENOENT }).ret = -1 ∧
    (_dbus_connect_tcp_socket (some "nohost.invalid") 4000
        { sock_env_ok with host_addr := none, host_errno := ENOENT }).trace =
      [SockCall.socket SockDomain.AF_INET ⟨5, 0⟩,
        SockCall.gethostbyname "nohost.invalid" none] ∧
    SockCall.close 5 ∉ (_dbus_connect_tcp_socket (some "nohost.invalid") 4000
        { sock_env_ok with host_addr := none, host_errno := ENOENT }).trace ∧
    (_dbus_listen_tcp_socket (some "nohost.invalid") 4000
        { sock_env_ok with host_addr := none, host_errno := ENOENT }).ret = -1 ∧
    (_dbus_listen_tcp_socket (some "nohost.invalid") 4000
        { sock_env_ok with host_addr := none, host_errno := ENOENT }).trace =
      [SockCall.socket SockDomain.AF_INET ⟨5, 0⟩,
        SockCall.gethostbyname "nohost.invalid" none] ∧
    SockCall.close 5 ∉ (_dbus_listen_tcp_socket (some "nohost.invalid") 4000
        { sock_env_ok with host_addr := none, host_errno := ENOENT }).trace ∧
    SockCall.close 5 ∈ (_dbus_connect_tcp_socket (some "nohost.invalid") 4000
        { sock_env_ok with connect := ⟨-1, ECONNREFUSED⟩ }).trace := by
  refine ⟨by decide, by decide, by decide, by decide, by decide, by decide, by decide⟩

/-- C12, refuted as stated: when `connect` on the socket of descriptor 5 fails
with `EINTR`, `_dbus_connect_unix_socket` makes that one `connect` call, closes
the descriptor and returns -1, where the run with a `connect` that succeeds at
once returns descriptor 5. -/
theorem connect_interrupted_not_retried :
    (_dbus_connect_unix_socket 99 [47, 120] sock_env_ok).ret = 5 ∧
    (_dbus_connect_unix_socket 99 [47, 120]
        { sock_env_ok with connect := ⟨-1, EINTR⟩ }).ret = -1 ∧
    (_dbus_connect_unix_socket 99 [47, 120]
        { sock_env_ok with connect := ⟨-1, EINTR⟩ }).trace =
      [SockCall.socket SockDomain.PF_UNIX ⟨5, 0⟩,
        SockCall.connect_un 5 [47, 120] ⟨-1, EINTR⟩, SockCall.close 5] := by
  refine ⟨by decide, by decide, by decide⟩

/-- C12, amended: in the connect and listen functions a `connect`, `bind` or
`listen` call that fails with `EINTR` is not repeated: after that one call the
descriptor is closed and -1 is returned, with the result code of an unmapped
error number (`DBUS_RESULT_FAILED`). -/
theorem interrupted_call_fails_without_retry (max_sun_path_length : Nat) (path : List Nat)
    (host : Option String) (port : Nat) (env : SockEnv) (haddr : Nat)
    (hsock : 0 ≤ env.socket.ret) (hhost : env.host_addr = some haddr) :
    (env.connect.ret < 0 → env.connect.errno = EINTR →
      _dbus_connect_unix_socket max_sun_path_length path env =
        { ret := -1, result := some DBusResultCode.DBUS_RESULT_FAILED,
          trace := [SockCall.socket SockDomain.PF_UNIX env.socket,
            SockCall.connect_un env.socket.ret (sun_path max_sun_path_length path) env.connect,
            SockCall.close env.socket.ret] } ∧
      _dbus_connect_tcp_socket host port env =
        { ret := -1, result := some DBusResultCode.DBUS_RESULT_FAILED,
          trace := [SockCall.socket SockDomain.AF_INET env.socket,
            SockCall.gethostbyname (host.getD "localhost") (some haddr),
            SockCall.connect_in env.socket.ret haddr (sin_port port) env.connect,
            SockCall.close env.socket.ret] }) ∧
    (env.bind.ret < 0 → env.bind.errno = EINTR →
      _dbus_listen_unix_socket max_sun_path_length path env =
        { ret := -1, result := some DBusResultCode.DBUS_RESULT_FAILED,
          trace := [SockCall.socket SockDomain.PF_UNIX env.socket,
            SockCall.bind_un env.socket.ret (sun_path max_sun_path_length path) env.bind,
            SockCall.close env.socket.ret] } ∧
      _dbus_listen_tcp_socket host port env =
        { ret := -1, result := some DBusResultCode.DBUS_RESULT_FAILED,
          trace := [SockCall.socket SockDomain.AF_INET env.socket,
            SockCall.gethostbyname (host.getD "localhost") (some haddr),
            SockCall.bind_in env.socket.ret haddr (sin_port port) env.bind,
            SockCall.close env.socket.ret] }) ∧
    (env.bind.ret = 0 → env.listen.ret < 0 → env.listen.errno = EINTR →
      _dbus_listen_unix_socket max_sun_path_length path env =
        { ret := -1, result := some DBusResultCode.DBUS_RESULT_FAILED,
          trace := [SockCall.socket SockDomain.PF_UNIX env.socket,
            SockCall.bind_un env.socket.ret (sun_path max_sun_path_length path) env.bind,
            SockCall.listen env.socket.ret 30 env.listen,
            SockCall.close env.socket.ret] } ∧
      _dbus_listen_tcp_socket host port env =
        { ret := -1, result := some DBusResultCode.DBUS_RESULT_FAILED,
          trace := [SockCall.socket SockDomain.AF_INET env.socket,
            SockCall.gethostbyname (host.getD "localhost") (some haddr),
            SockCall.bind_in env.socket.ret haddr (sin_port port) env.bind,
            SockCall.listen env.socket.ret 30 env.listen,
            SockCall.close env.socket.ret] }) := by
  have hs : ¬ env.socket.ret < 0 := by omega
  have hE : _dbus_result_from_errno EINTR = DBusResultCode.DBUS_RESULT_FAILED := by decide
  refine ⟨?_, ?_, ?_⟩
  · intro h1 h2
    constructor
    · simp [_dbus_connect_unix_socket, hs, h1, h2, hE]
    · cases host <;> simp [_dbus_connect_tcp_socket, hs, hhost, h1, h2, hE]
  · intro h1 h2
    have h1' : ¬ env.bind.ret = 0 := by omega
    constructor
    · simp [_dbus_listen_unix_socket, hs, h1, h2, hE]
    · cases host <;> simp [_dbus_listen_tcp_socket, hs, hhost, h1', h2, hE]
  · intro h0 h1 h2
    have h0' : ¬ env.bind.ret < 0 := by omega
    constructor
    · simp [_dbus_listen_unix_socket, hs, h0', h1, h2, hE]
    · cases host <;> simp [_dbus_listen_tcp_socket, hs, hhost, h0, h1, h2, hE]

/-- C12 amended, at a `connect` to a TCP socket that fails with `EINTR`. -/
theorem interrupted_call_fails_without_retry_witness :
    _dbus_connect_tcp_socket none 4000 { sock_env_ok with connect := ⟨-1, EINTR⟩ } =
      { ret := -1, result := some DBusResultCode.DBUS_RESULT_FAILED,
        trace := [SockCall.socket SockDomain.AF_INET ⟨5, 0⟩,
          SockCall.gethostbyname "localhost" (some 2130706433),
          SockCall.connect_in 5 2130706433 4000 ⟨-1, EINTR⟩, SockCall.close 5] } :=
  ((interrupted_call_fails_without_retry 99 [47, 120] none 4000
    { sock_env_ok with connect := ⟨-1, EINTR⟩ } 2130706433 (by decide) (by decide)).1
    (by decide) (by decide)).2

/-- C13: for every sequence of `accept` outcomes that holds a call not
interrupted, `_dbus_accept` repeats `accept` over the calls that fail with
`EINTR` and returns what the first other call returned (the new descriptor, or
the -1 of a failure), that call being the last one made. -/
theorem accept_returns_first_uninterrupted (listen_fd : Int) (pre : List SysResult)
    (r : SysResult) (rest : List SysResult)
    (hpre : ∀ p ∈ pre, p.ret < 0 ∧ p.errno = EINTR)
    (hr : ¬ (r.ret < 0 ∧ r.errno = EINTR)) :
    (_dbus_accept listen_fd (pre ++ r :: rest)).1 = r.ret ∧
    (_dbus_accept listen_fd (pre ++ r :: rest)).2 =
      (pre ++ [r]).map (SockCall.accept listen_fd) := by
  induction pre with
  | nil =>
    simp only [List.nil_append, _dbus_accept, List.map_cons, List.map_nil]
    by_cases h1 : r.ret < 0
    · have h2 : ¬ r.errno = EINTR := fun h => hr ⟨h1, h⟩
      simp [h1, h2]
    · simp [h1]
  | cons p ps ih =>
    have hp := hpre p (List.mem_cons_self _ _)
    have ih' := ih (fun q hq => hpre q (List.mem_cons_of_mem _ hq))
    simp only [List.cons_append, _dbus_accept, hp.1, hp.2, if_true, List.map_cons]
    exact ⟨ih'.1, congrArg (List.cons (SockCall.accept listen_fd p)) ih'.2⟩

/-- C13, at two interrupted calls, a call that gives descriptor 7, and a
further outcome that is not consumed. -/
theorem accept_returns_first_uninterrupted_witness :
    (_dbus_accept 3 [⟨-1, EINTR⟩, ⟨-1, EINTR⟩, ⟨7, 0⟩, ⟨8, 0⟩]).1 = 7 ∧
    (_dbus_accept 3 [⟨-1, EINTR⟩, ⟨-1, EINTR⟩, ⟨7, 0⟩, ⟨8, 0⟩]).2 =
      [SockCall.accept 3 ⟨-1, EINTR⟩, SockCall.accept 3 ⟨-1, EINTR⟩,
        SockCall.accept 3 ⟨7, 0⟩] :=
  accept_returns_first_uninterrupted 3 [⟨-1, EINTR⟩, ⟨-1, EINTR⟩] ⟨7, 0⟩ [⟨8, 0⟩]
    (by decide) (by decide)

/-! ### The credentials byte -/

theorem write_credentials_byte_skips_interrupted (server_fd : Int) (pre : List SysResult)
    (r : SysResult) (rest : List SysResult)
    (hpre : ∀ p ∈ pre, p.ret < 0 ∧ p.errno = EINTR)
    (hr : ¬ (r.ret < 0 ∧ r.errno = EINTR)) :
    write_credentials_byte server_fd (pre ++ r :: rest) =
      { ret := decide (0 < r.ret),
        result :=
          if r.ret < 0 then some (_dbus_result_from_errno r.errno)
          else if r.ret = 0 then some DBusResultCode.DBUS_RESULT_IO_ERROR
          else none,
        trace := (pre ++ [r]).map (CredCall.write server_fd [0]) } := by
  induction pre with
  | nil =>
    simp only [List.nil_append, write_credentials_byte, hr, if_false, List.map_cons,
      List.map_nil]
    by_cases h1 : r.ret < 0
    · have h2 : ¬ 0 < r.ret := by omega
      simp [h1, h2]
    · by_cases h3 : r.ret = 0
      · simp [h3]
      · have h4 : 0 < r.ret := by omega
        simp [h1, h3, h4]
  | cons p ps ih =>
    have hp := hpre p (List.mem_cons_self _ _)
    have ih' := ih (fun q hq => hpre q (List.mem_cons_of_mem _ hq))
    have hp' : p.ret < 0 ∧ p.errno = EINTR := hp
    simp only [List.cons_append, write_credentials_byte, hp', and_self, if_true, List.map_cons,
      List.append_eq, ih']

theorem recvmsg_again_skips_interrupted (client_fd : Int) (pre : List RecvResult)
    (r : RecvResult) (rest : List RecvResult)
    (hpre : ∀ p ∈ pre, p.ret < 0 ∧ p.errno = EINTR) (hr : 0 ≤ r.ret) :
    recvmsg_again client_fd (pre ++ r :: rest) =
      (r, (pre ++ [r]).map fun x => CredCall.recvmsg client_fd x.ret x.errno) := by
  induction pre with
  | nil =>
    have h1 : ¬ r.ret < 0 := by omega
    simp [recvmsg_again, h1]
  | cons p ps ih =>
    have hp := hpre p (List.mem_cons_self _ _)
    have ih' := ih (fun q hq => hpre q (List.mem_cons_of_mem _ hq))
    simp only [List.cons_append, recvmsg_again, hp.1, hp.2, if_true, List.map_cons,
      List.append_eq, ih']

/-- C14: `_dbus_send_credentials_unix_socket` attempts only writes of the one
byte 0; after the attempts that fail with `EINTR`, at the first other attempt
it returns TRUE exactly when the write reported one byte written, FALSE with
`DBUS_RESULT_IO_ERROR` when it reported 0 bytes, and FALSE with the result
code of `errno` when it failed. -/
theorem send_credentials_writes_one_zero_byte (server_fd : Int) (pre : List SysResult)
    (r : SysResult) (rest : List SysResult)
    (hpre : ∀ p ∈ pre, p.ret < 0 ∧ p.errno = EINTR)
    (hr : ¬ (r.ret < 0 ∧ r.errno = EINTR)) (hle : r.ret ≤ 1) :
    (_dbus_send_credentials_unix_socket server_fd (pre ++ r :: rest)).trace =
      (pre ++ [r]).map (CredCall.write server_fd [0]) ∧
    ((_dbus_send_credentials_unix_socket server_fd (pre ++ r :: rest)).ret = true ↔
      r.ret = 1) ∧
    (r.ret = 0 →
      (_dbus_send_credentials_unix_socket server_fd (pre ++ r :: rest)).ret = false ∧
      (_dbus_send_credentials_unix_socket server_fd (pre ++ r :: rest)).result =
        some DBusResultCode.DBUS_RESULT_IO_ERROR) ∧
    (r.ret < 0 →
      (_dbus_send_credentials_unix_socket server_fd (pre ++ r :: rest)).ret = false ∧
      (_dbus_send_credentials_unix_socket server_fd (pre ++ r :: rest)).result =
        some (_dbus_result_from_errno r.errno)) := by
  have h := write_credentials_byte_skips_interrupted server_fd pre r rest hpre hr
  unfold _dbus_send_credentials_unix_socket
  rw [h]
  refine ⟨?_, ?_, ?_, ?_⟩
  · split_ifs <;> rfl
  · by_cases h1 : 0 < r.ret
    · have : r.ret = 1 := by omega
      simp [this]
    · have : ¬ r.ret = 1 := by omega
      simp [h1, this]
  · intro h0
    simp [h0]
  · intro h0
    have h1 : ¬ 0 < r.ret := by omega
    simp [h0, h1]

/-- C14, at one interrupted attempt followed by a write of one byte. -/
theorem send_credentials_writes_one_zero_byte_witness :
    (_dbus_send_credentials_unix_socket 7 [⟨-1, EINTR⟩, ⟨1, 0⟩]).trace =
      [CredCall.write 7 [0] ⟨-1, EINTR⟩, CredCall.write 7 [0] ⟨1, 0⟩] ∧
    ((_dbus_send_credentials_unix_socket 7 [⟨-1, EINTR⟩, ⟨1, 0⟩]).ret = true ↔
      (1 : Int) = 1) :=
  ⟨(send_credentials_writes_one_zero_byte 7 [⟨-1, EINTR⟩] ⟨1, 0⟩ []
      (by decide) (by decide) (by decide)).1,
    (send_credentials_writes_one_zero_byte 7 [⟨-1, EINTR⟩] ⟨1, 0⟩ []
      (by decide) (by decide) (by decide)).2.1⟩

/-- C15: in every platform configuration, when the receive is reached (the
`LOCAL_CREDS` set-up, where compiled in, did not fail) and, after the calls
interrupted by a signal, delivers a byte other than zero,
`_dbus_read_credentials_unix_socket` returns FALSE with `DBUS_RESULT_FAILED`. -/
theorem read_credentials_nonzero_byte_fails (cfg : CredConfig) (client_fd : Int)
    (env : ReadCredEnv) (pre : List RecvResult) (r : RecvResult) (rest : List RecvResult)
    (b : Nat) (hrecvs : env.recvs = pre ++ r :: rest)
    (hpre : ∀ p ∈ pre, p.ret < 0 ∧ p.errno = EINTR) (hok : 0 ≤ r.ret)
    (hb : r.byte = some b) (hnz : b ≠ 0)
    (hset : cfg.LOCAL_CREDS = true → cfg.HAVE_CMSGCRED = true → 0 ≤ env.setsockopt.ret) :
    (_dbus_read_credentials_unix_socket cfg client_fd env).ret = false ∧
    (_dbus_read_credentials_unix_socket cfg client_fd env).result =
      some DBusResultCode.DBUS_RESULT_FAILED := by
  have hrv := recvmsg_again_skips_interrupted client_fd pre r rest hpre hok
  have h1 : ¬ r.ret < 0 := by omega
  have hs : ¬ (cfg.LOCAL_CREDS = true ∧ cfg.HAVE_CMSGCRED = true ∧ env.setsockopt.ret < 0) := by
    rintro ⟨a, b', c⟩
    have := hset a b'
    omega
  simp only [_dbus_read_credentials_unix_socket, hs, if_false, hrecvs, hrv, h1, hb,
    Option.getD_some, ne_eq, hnz, not_false_eq_true, if_true, and_self]

/-- C15, at the byte 65 received on a platform with `SO_PEERCRED`. -/
theorem read_credentials_nonzero_byte_fails_witness :
    (_dbus_read_credentials_unix_socket cfg_peercred 7
        (read_cred_env [⟨1, 0, some 65, 0, 0, ⟨-1, -1, -1⟩⟩] 0)).ret = false ∧
    (_dbus_read_credentials_unix_socket cfg_peercred 7
        (read_cred_env [⟨1, 0, some 65, 0, 0, ⟨-1, -1, -1⟩⟩] 0)).result =
      some DBusResultCode.DBUS_RESULT_FAILED :=
  read_credentials_nonzero_byte_fails cfg_peercred 7
    (read_cred_env [⟨1, 0, some 65, 0, 0, ⟨-1, -1, -1⟩⟩] 0) [] ⟨1, 0, some 65, 0, 0, ⟨-1, -1, -1⟩⟩
    [] 65 rfl (by decide) (by decide) rfl (by decide) (by decide)

/-- C16, the code at a receive of zero bytes: on a platform with `SO_PEERCRED`,
`recvmsg` returns 0 and stores no byte. The test is `recvmsg (...) < 0` only,
so the byte compared with zero is what `buf`, never initialised, held before:
when that is 0 the function returns TRUE with the credentials of
`getsockopt`, and when it is 65 it returns FALSE. -/
theorem read_credentials_zero_bytes_accepted :
    (_dbus_read_credentials_unix_socket cfg_peercred 7
        (read_cred_env [⟨0, 0, none, 0, 0, ⟨-1, -1, -1⟩⟩] 0)).ret = true ∧
    (_dbus_read_credentials_unix_socket cfg_peercred 7
        (read_cred_env [⟨0, 0, none, 0, 0, ⟨-1, -1, -1⟩⟩] 0)).result = none ∧
    (_dbus_read_credentials_unix_socket cfg_peercred 7
        (read_cred_env [⟨0, 0, none, 0, 0, ⟨-1, -1, -1⟩⟩] 0)).credentials =
      ⟨4242, 1000, 1000⟩ ∧
    (_dbus_read_credentials_unix_socket cfg_peercred 7
        (read_cred_env [⟨0, 0, none, 0, 0, ⟨-1, -1, -1⟩⟩] 0)).trace =
      [CredCall.recvmsg 7 0 0, CredCall.getsockopt_peercred 7 ⟨0, 0⟩] ∧
    (_dbus_read_credentials_unix_socket cfg_peercred 7
        (read_cred_env [⟨0, 0, none, 0, 0, ⟨-1, -1, -1⟩⟩] 65)).ret = false := by
  refine ⟨by decide, by decide, by decide, by decide, by decide⟩

/-- C17, the code at a missing control message: on a platform with
`HAVE_CMSGCRED`, the receive succeeds with the byte 0 and no control message
(`cmsgmem` still zeroed). `_dbus_read_credentials_unix_socket` returns FALSE
with `DBUS_RESULT_FAILED`, although a byte was read and it is zero. On the
neighbouring `SO_PEERCRED` path the same byte with a failed `getsockopt`
returns TRUE with pid, uid and gid all -1. -/
theorem read_credentials_cmsg_missing_fails :
    (_dbus_read_credentials_unix_socket cfg_cmsgcred 7
        (read_cred_env [⟨1, 0, some 0, 0, 0, ⟨-1, -1, -1⟩⟩] 0)).ret = false ∧
    (_dbus_read_credentials_unix_socket cfg_cmsgcred 7
        (read_cred_env [⟨1, 0, some 0, 0, 0, ⟨-1, -1, -1⟩⟩] 0)).result =
      some DBusResultCode.DBUS_RESULT_FAILED ∧
    (_dbus_read_credentials_unix_socket cfg_cmsgcred 7
        (read_cred_env [⟨1, 0, some 0, 0, 0, ⟨-1, -1, -1⟩⟩] 0)).credentials =
      ⟨-1, -1, -1⟩ ∧
    (_dbus_read_credentials_unix_socket cfg_cmsgcred 7
        (read_cred_env [⟨1, 0, some 0, 0, 0, ⟨-1, -1, -1⟩⟩] 0)).trace =
      [CredCall.recvmsg 7 1 0] ∧
    (_dbus_read_credentials_unix_socket cfg_peercred 7
        { read_cred_env [⟨1, 0, some 0, 0, 0, ⟨-1, -1, -1⟩⟩] 0 with
          getsockopt := ⟨-1, EINVAL⟩ }).ret = true ∧
    (_dbus_read_credentials_unix_socket cfg_peercred 7
        { read_cred_env [⟨1, 0, some 0, 0, 0, ⟨-1, -1, -1⟩⟩] 0 with
          getsockopt := ⟨-1, EINVAL⟩ }).credentials = ⟨-1, -1, -1⟩ := by
  refine ⟨by decide, by decide, by decide, by decide, by decide, by decide⟩

/-! ### Result codes -/

/-- C18, refuted as stated: `EMFILE`, an error number other than 0, is mapped to
`DBUS_RESULT_LIMITS_EXCEEDED`, which is none of the nine kinds listed; so is
`ENFILE`. -/
theorem result_from_errno_limits_exceeded :
    EMFILE ≠ 0 ∧
    _dbus_result_from_errno EMFILE = DBusResultCode.DBUS_RESULT_LIMITS_EXCEEDED ∧
    _dbus_result_from_errno ENFILE = DBusResultCode.DBUS_RESULT_LIMITS_EXCEEDED ∧
    _dbus_result_from_errno EMFILE ∉ surfaced_kinds := by
  refine ⟨by decide, by decide, by decide, by decide⟩

/-- C19: `_dbus_result_from_errno` is total and equal to the table of the
specification at every error number: 0 gives Success, the listed error numbers
give their kinds, and every other error number gives Failed. -/
theorem result_from_errno_eq_table (e : Int) :
    _dbus_result_from_errno e = result_code_table e := by
  by_cases h0 : e = 0
  · subst h0; decide
  by_cases h1 : e = EPROTONOSUPPORT
  · subst h1; decide
  by_cases h2 : e = EAFNOSUPPORT
  · subst h2; decide
  by_cases h3 : e = ENFILE
  · subst h3; decide
  by_cases h4 : e = EMFILE
  · subst h4; decide
  by_cases h5 : e = EACCES
  · subst h5; decide
  by_cases h6 : e = EPERM
  · subst h6; decide
  by_cases h7 : e = ENOBUFS
  · subst h7; decide
  by_cases h8 : e = ENOMEM
  · subst h8; decide
  by_cases h9 : e = EINVAL
  · subst h9; decide
  by_cases h10 : e = EBADF
  · subst h10; decide
  by_cases h11 : e = EFAULT
  · subst h11; decide
  by_cases h12 : e = ENOTSOCK
  · subst h12; decide
  by_cases h13 : e = EISCONN
  · subst h13; decide
  by_cases h14 : e = ECONNREFUSED
  · subst h14; decide
  by_cases h15 : e = ETIMEDOUT
  · subst h15; decide
  by_cases h16 : e = ENETUNREACH
  · subst h16; decide
  by_cases h17 : e = EADDRINUSE
  · subst h17; decide
  by_cases h18 : e = EEXIST
  · subst h18; decide
  by_cases h19 : e = ENOENT
  · subst h19; decide
  simp only [_dbus_result_from_errno, result_code_table, h0, h1, h2, h3, h4, h5, h6, h7, h8, h9, h10,
    h11, h12, h13, h14, h15, h16, h17, h18, h19,
    if_false, or_self]

/-- C18, amended: for every error number other than 0, `_dbus_result_from_errno`
gives one of ten kinds, the nine listed or LimitsExceeded. -/
theorem result_from_errno_kinds (e : Int) (he : e ≠ 0) :
    _dbus_result_from_errno e ∈ DBusResultCode.DBUS_RESULT_LIMITS_EXCEEDED :: surfaced_kinds := by
  by_cases h1 : e = EPROTONOSUPPORT
  · subst h1; decide
  by_cases h2 : e = EAFNOSUPPORT
  · subst h2; decide
  by_cases h3 : e = ENFILE
  · subst h3; decide
  by_cases h4 : e = EMFILE
  · subst h4; decide
  by_cases h5 : e = EACCES
  · subst h5; decide
  by_cases h6 : e = EPERM
  · subst h6; decide
  by_cases h7 : e = ENOBUFS
  · subst h7; decide
  by_cases h8 : e = ENOMEM
  · subst h8; decide
  by_cases h9 : e = EINVAL
  · subst h9; decide
  by_cases h10 : e = EBADF
  · subst h10; decide
  by_cases h11 : e = EFAULT
  · subst h11; decide
  by_cases h12 : e = ENOTSOCK
  · subst h12; decide
  by_cases h13 : e = EISCONN
  · subst h13; decide
  by_cases h14 : e = ECONNREFUSED
  · subst h14; decide
  by_cases h15 : e = ETIMEDOUT
  · subst h15; decide
  by_cases h16 : e = ENETUNREACH
  · subst h16; decide
  by_cases h17 : e = EADDRINUSE
  · subst h17; decide
  by_cases h18 : e = EEXIST
  · subst h18; decide
  by_cases h19 : e = ENOENT
  · subst h19; decide
  simp only [_dbus_result_from_errno, he, h1, h2, h3, h4, h5, h6, h7, h8, h9, h10,
    h11, h12, h13, h14, h15, h16, h17, h18, h19, if_false]
  decide

/-- C18 amended, at `ECONNREFUSED`. -/
theorem result_from_errno_kinds_witness :
    _dbus_result_from_errno ECONNREFUSED ∈
      DBusResultCode.DBUS_RESULT_LIMITS_EXCEEDED :: surfaced_kinds :=
  result_from_errno_kinds ECONNREFUSED (by decide)

/-- C20, refuted as stated: for the empty string as host, with every call
succeeding on descriptor 5, `_dbus_connect_tcp_socket` and
`_dbus_listen_tcp_socket` call `gethostbyname` on the empty string, not on
"localhost". -/
theorem tcp_socket_empty_host_not_localhost :
    (_dbus_connect_tcp_socket (some "") 4000 sock_env_ok).trace =
      [SockCall.socket SockDomain.AF_INET ⟨5, 0⟩,
        SockCall.gethostbyname "" (some 2130706433),
        SockCall.connect_in 5 2130706433 4000 ⟨0, 0⟩, SockCall.set_fd_nonblocking 5 true] ∧
    (_dbus_listen_tcp_socket (some "") 4000 sock_env_ok).trace =
      [SockCall.socket SockDomain.AF_INET ⟨5, 0⟩,
        SockCall.gethostbyname "" (some 2130706433),
        SockCall.bind_in 5 2130706433 4000 ⟨0, 0⟩, SockCall.listen 5 30 ⟨0, 0⟩,
        SockCall.set_fd_nonblocking 5 true] ∧
    SockCall.gethostbyname "localhost" (some 2130706433) ∉
      (_dbus_connect_tcp_socket (some "") 4000 sock_env_ok).trace ∧
    SockCall.gethostbyname "localhost" (some 2130706433) ∉
      (_dbus_listen_tcp_socket (some "") 4000 sock_env_ok).trace := by
  refine ⟨by decide, by decide, by decide, by decide⟩

/-- C20, amended: once the socket is created, `_dbus_connect_tcp_socket` and
`_dbus_listen_tcp_socket` resolve the name "localhost" when the host argument is
NULL and the given host name otherwise, the empty string included: the
`gethostbyname` calls they make are that one call. -/
theorem tcp_socket_resolves_host (h : String) (port : Nat) (env : SockEnv)
    (hsock : 0 ≤ env.socket.ret) :
    (∀ name a, SockCall.gethostbyname name a ∈ (_dbus_connect_tcp_socket none port env).trace ↔
      name = "localhost" ∧ a = env.host_addr) ∧
    (∀ name a,
      SockCall.gethostbyname name a ∈ (_dbus_connect_tcp_socket (some h) port env).trace ↔
        name = h ∧ a = env.host_addr) ∧
    (∀ name a, SockCall.gethostbyname name a ∈ (_dbus_listen_tcp_socket none port env).trace ↔
      name = "localhost" ∧ a = env.host_addr) ∧
    (∀ name a,
      SockCall.gethostbyname name a ∈ (_dbus_listen_tcp_socket (some h) port env).trace ↔
        name = h ∧ a = env.host_addr) := by
  have hs : ¬ env.socket.ret < 0 := by omega
  refine ⟨?_, ?_, ?_, ?_⟩
  · intro name a
    cases hh : env.host_addr <;> by_cases h2 : env.connect.ret < 0 <;>
      by_cases h3 : env.set_fd_nonblocking = true <;>
      simp [_dbus_connect_tcp_socket, hs, hh, h2, h3]
  · intro name a
    cases hh : env.host_addr <;> by_cases h2 : env.connect.ret < 0 <;>
      by_cases h3 : env.set_fd_nonblocking = true <;>
      simp [_dbus_connect_tcp_socket, hs, hh, h2, h3]
  · intro name a
    cases hh : env.host_addr <;> by_cases h2 : env.bind.ret = 0 <;>
      by_cases h3 : env.listen.ret < 0 <;> by_cases h4 : env.set_fd_nonblocking = true <;>
      simp [_dbus_listen_tcp_socket, hs, hh, h2, h3, h4]
  · intro name a
    cases hh : env.host_addr <;> by_cases h2 : env.bind.ret = 0 <;>
      by_cases h3 : env.listen.ret < 0 <;> by_cases h4 : env.set_fd_nonblocking = true <;>
      simp [_dbus_listen_tcp_socket, hs, hh, h2, h3, h4]

/-- C20 amended, at a connect with a NULL host and a listen on the empty
string. -/
theorem tcp_socket_resolves_host_witness :
    SockCall.gethostbyname "localhost" (some 2130706433) ∈
      (_dbus_connect_tcp_socket none 4000 sock_env_ok).trace ∧
    SockCall.gethostbyname "" (some 2130706433) ∈
      (_dbus_listen_tcp_socket (some "") 4000 sock_env_ok).trace :=
  ⟨((tcp_socket_resolves_host "" 4000 sock_env_ok (by decide)).1 "localhost"
      (some 2130706433)).mpr ⟨rfl, rfl⟩,
    ((tcp_socket_resolves_host "" 4000 sock_env_ok (by decide)).2.2.2 ""
      (some 2130706433)).mpr ⟨rfl, rfl⟩⟩

/-! ### The socket address of a path -/

theorem sun_path_array_eq (size max : Nat) (path : List Nat) (hmax : max < size) :
    sun_path_array size max path =
      path.take (min path.length max) ++ List.replicate (size - min path.length max) 0 := by
  unfold sun_path_array strncpy
  apply List.ext_getElem
  · simp only [List.length_set, List.length_append, List.length_take, List.length_replicate,
      List.length_drop]
    omega
  · intro i h1 h2
    simp only [List.getElem_set, List.getElem_append, List.length_take, List.length_replicate,
      List.getElem_take, List.getElem_replicate, List.getElem_drop, List.length_append]
    split_ifs <;> first | rfl | omega

/-- C21: for every path, the array `addr.sun_path` built by
`_dbus_connect_unix_socket` and `_dbus_listen_unix_socket` holds the first
`min (length path, _DBUS_MAX_SUN_PATH_LENGTH)` bytes of the path followed by a
NUL (the whole path when it is within the limit), that string is the address
given to `connect` and `bind`, and the value the functions return is the same
for every path: the length of the path is no reason to fail. -/
theorem sun_path_truncated_not_rejected (sizeof_sun_path max_sun_path_length : Nat)
    (path : List Nat) (env : SockEnv)
    (hmax : max_sun_path_length < sizeof_sun_path) (hsock : 0 ≤ env.socket.ret) :
    (sun_path_array sizeof_sun_path max_sun_path_length path).take
        (min path.length max_sun_path_length + 1) =
      path.take (min path.length max_sun_path_length) ++ [0] ∧
    sun_path max_sun_path_length path = path.take (min path.length max_sun_path_length) ∧
    (path.length ≤ max_sun_path_length → sun_path max_sun_path_length path = path) ∧
    SockCall.connect_un env.socket.ret (path.take (min path.length max_sun_path_length))
        env.connect ∈ (_dbus_connect_unix_socket max_sun_path_length path env).trace ∧
    SockCall.bind_un env.socket.ret (path.take (min path.length max_sun_path_length))
        env.bind ∈ (_dbus_listen_unix_socket max_sun_path_length path env).trace ∧
    (∀ path' : List Nat,
      (_dbus_connect_unix_socket max_sun_path_length path env).ret =
        (_dbus_connect_unix_socket max_sun_path_length path' env).ret ∧
      (_dbus_listen_unix_socket max_sun_path_length path env).ret =
        (_dbus_listen_unix_socket max_sun_path_length path' env).ret) := by
  have hs : ¬ env.socket.ret < 0 := by omega
  have htake : path.take max_sun_path_length =
      path.take (min path.length max_sun_path_length) := by
    rcases Nat.le_total path.length max_sun_path_length with h | h
    · rw [Nat.min_eq_left h, List.take_of_length_le h, List.take_of_length_le (le_refl _)]
    · rw [Nat.min_eq_right h]
  refine ⟨?_, ?_, ?_, ?_, ?_, ?_⟩
  · rw [sun_path_array_eq sizeof_sun_path max_sun_path_length path hmax]
    have hlen : (path.take (min path.length max_sun_path_length)).length =
        min path.length max_sun_path_length := by
      simp
    have hrep : List.replicate (sizeof_sun_path - min path.length max_sun_path_length) 0 =
        (0 : Nat) :: List.replicate
          (sizeof_sun_path - min path.length max_sun_path_length - 1) 0 := by
      have : sizeof_sun_path - min path.length max_sun_path_length =
          (sizeof_sun_path - min path.length max_sun_path_length - 1) + 1 := by omega
      conv_lhs => rw [this, List.replicate_succ]
    rw [hrep, List.take_append_eq_append_take, hlen]
    simp
  · exact htake
  · intro h
    unfold sun_path
    exact List.take_of_length_le h
  · rw [← htake]
    by_cases h2 : env.connect.ret < 0 <;> by_cases h3 : env.set_fd_nonblocking = true <;>
      simp [_dbus_connect_unix_socket, sun_path, hs, h2, h3]
  · rw [← htake]
    by_cases h2 : env.bind.ret < 0 <;> by_cases h3 : env.listen.ret < 0 <;>
      by_cases h4 : env.set_fd_nonblocking = true <;>
      simp [_dbus_listen_unix_socket, sun_path, hs, h2, h3, h4]
  · intro path'
    constructor
    · by_cases h2 : env.connect.ret < 0 <;> by_cases h3 : env.set_fd_nonblocking = true <;>
        simp [_dbus_connect_unix_socket, hs, h2, h3]
    · by_cases h2 : env.bind.ret < 0 <;> by_cases h3 : env.listen.ret < 0 <;>
        by_cases h4 : env.set_fd_nonblocking = true <;>
        simp [_dbus_listen_unix_socket, hs, h2, h3, h4]

/-- C21, at a path of seven bytes and a limit of five in an array of twelve. -/
theorem sun_path_truncated_not_rejected_witness :
    (sun_path_array 12 5 [47, 116, 109, 112, 47, 120, 121]).take 6 =
      [47, 116, 109, 112, 47, 0] ∧
    (_dbus_connect_unix_socket 5 [47, 116, 109, 112, 47, 120, 121] sock_env_ok).ret =
      (_dbus_connect_unix_socket 5 [47] sock_env_ok).ret :=
  ⟨(sun_path_truncated_not_rejected 12 5 [47, 116, 109, 112, 47, 120, 121] sock_env_ok
      (by decide) (by decide)).1,
    ((sun_path_truncated_not_rejected 12 5 [47, 116, 109, 112, 47, 120, 121] sock_env_ok
      (by decide) (by decide)).2.2.2.2.2 [47]).1⟩

/-! ### Data slots -/

theorem data_slot_set_stores (l : DBusDataSlotList) (slot d f : Nat) :
    slot < (_dbus_data_slot_list_set l slot d f).list.slots.length ∧
    (_dbus_data_slot_list_set l slot d f).list.slots.getD slot ⟨0, 0⟩ = ⟨d, f⟩ := by
  simp only [_dbus_data_slot_list_set]
  have hlen : slot < (if slot ≥ l.slots.length then
      l.slots ++ List.replicate (slot + 1 - l.slots.length) (⟨0, 0⟩ : DBusDataSlot)
      else l.slots).length := by
    split_ifs with h
    · simp only [List.length_append, List.length_replicate]; omega
    · omega
  refine ⟨by simpa using hlen, ?_⟩
  rw [List.getD_eq_getElem?_getD, List.getElem?_set_self hlen]
  rfl

theorem data_slot_set_returns_old (l : DBusDataSlotList) (slot d f d2 f2 : Nat)
    (hlt : slot < l.slots.length) (hget : l.slots.getD slot ⟨0, 0⟩ = ⟨d, f⟩) :
    (_dbus_data_slot_list_set l slot d2 f2).old_data = d ∧
    (_dbus_data_slot_list_set l slot d2 f2).old_free_func = f := by
  have h : ¬ slot ≥ l.slots.length := by omega
  simp only [_dbus_data_slot_list_set, h, if_false, hget, and_self]

theorem data_slot_get_stored (l : DBusDataSlotList) (slot d f : Nat)
    (hlt : slot < l.slots.length) (hget : l.slots.getD slot ⟨0, 0⟩ = ⟨d, f⟩) :
    _dbus_data_slot_list_get l slot = d := by
  have h : ¬ slot ≥ l.slots.length := by omega
  simp only [_dbus_data_slot_list_get, h, if_false, hget]

/-- C22: for every list, slot, data D and free function, `set (slot, D, f)`
followed by `get (slot)` returns D; a second `set (slot, D2, f2)` returns the
pair (D, f) unchanged as the old pair, stores D2, and neither `set` calls a
free function. -/
theorem data_slot_set_get_round_trip (list : DBusDataSlotList) (slot : Nat)
    (data free_data_func data2 free_data_func2 : Nat) :
    _dbus_data_slot_list_get (_dbus_data_slot_list_set list slot data free_data_func).list slot
      = data ∧
    (_dbus_data_slot_list_set (_dbus_data_slot_list_set list slot data free_data_func).list
      slot data2 free_data_func2).old_data = data ∧
    (_dbus_data_slot_list_set (_dbus_data_slot_list_set list slot data free_data_func).list
      slot data2 free_data_func2).old_free_func = free_data_func ∧
    (_dbus_data_slot_list_set list slot data free_data_func).invoked = [] ∧
    (_dbus_data_slot_list_set (_dbus_data_slot_list_set list slot data free_data_func).list
      slot data2 free_data_func2).invoked = [] ∧
    _dbus_data_slot_list_get
      (_dbus_data_slot_list_set (_dbus_data_slot_list_set list slot data free_data_func).list
        slot data2 free_data_func2).list slot = data2 := by
  have k1 := data_slot_set_stores list slot data free_data_func
  have k2 := data_slot_set_stores
    (_dbus_data_slot_list_set list slot data free_data_func).list slot data2 free_data_func2
  have o := data_slot_set_returns_old
    (_dbus_data_slot_list_set list slot data free_data_func).list slot data free_data_func
    data2 free_data_func2 k1.1 k1.2
  exact ⟨data_slot_get_stored _ slot data free_data_func k1.1 k1.2, o.1, o.2, rfl, rfl,
    data_slot_get_stored _ slot data2 free_data_func2 k2.1 k2.2⟩

/-! ### The slot allocator -/

theorem lowest_unused_from_range (k : Nat) :
    ∀ (fuel n : Nat), n ≤ k → k ≤ n + fuel → lowest_unused_from (List.range k) fuel n = k := by
  intro fuel
  induction fuel with
  | zero =>
    intro n h1 h2
    simp only [lowest_unused_from]
    omega
  | succ f ih =>
    intro n h1 h2
    simp only [lowest_unused_from, List.mem_range]
    by_cases h : n < k
    · simp only [h, if_true]
      exact ih (n + 1) (by omega) (by omega)
    · simp only [h, if_false]
      omega

theorem lowest_unused_range (k : Nat) : lowest_unused (List.range k) = k := by
  unfold lowest_unused
  exact lowest_unused_from_range k _ 0 (Nat.zero_le _) (by simp)

theorem alloc_n_range (n : Nat) :
    ∀ k : Nat, alloc_n n ⟨(List.range k).map fun i => (i, 1)⟩ =
      (List.range' k n, ⟨(List.range (k + n)).map fun i => (i, 1)⟩) := by
  induction n with
  | zero => intro k; simp [alloc_n]
  | succ m ih =>
    intro k
    have hmap : ((List.range k).map fun i => (i, 1)).map Prod.fst = List.range k := by
      simp [List.map_map, Function.comp_def]
    have halloc : _dbus_data_slot_allocator_alloc ⟨(List.range k).map fun i => (i, 1)⟩ =
        (k, ⟨(List.range (k + 1)).map fun i => (i, 1)⟩) := by
      simp only [_dbus_data_slot_allocator_alloc, hmap, lowest_unused_range]
      simp [List.range_succ]
    simp only [alloc_n, halloc, ih (k + 1)]
    have e : k + 1 + m = k + (m + 1) := by omega
    rw [e]
    rfl

theorem free_of_count_one (l : List Nat) (slot_id : Nat) :
    _dbus_data_slot_allocator_free ⟨l.map fun i => (i, 1)⟩ slot_id =
      ⟨(l.filter fun i => decide (i ≠ slot_id)).map fun i => (i, 1)⟩ := by
  simp only [_dbus_data_slot_allocator_free, DBusDataSlotAllocator.mk.injEq]
  induction l with
  | nil => rfl
  | cons a as ih =>
    by_cases h : a = slot_id
    · simp [List.filterMap_cons, List.filter_cons, h, ih]
    · simp [List.filterMap_cons, List.filter_cons, h, ih]

theorem free_all_of_count_one (ids : List Nat) :
    ∀ l : List Nat, free_all ⟨l.map fun i => (i, 1)⟩ ids =
      ⟨(l.filter fun i => decide (i ∉ ids)).map fun i => (i, 1)⟩ := by
  induction ids with
  | nil => intro l; simp [free_all]
  | cons a as ih =>
    intro l
    have h := ih (l.filter fun i => decide (i ≠ a))
    simp only [free_all, List.foldl_cons, free_of_count_one] at h ⊢
    rw [h, List.filter_filter]
    congr 2
    apply List.filter_congr
    intro x _
    simp only [List.mem_cons, not_or, ne_eq, Bool.decide_and, Bool.and_comm]

/-- C23: for every N, the N slot ids allocated from a fresh allocator are
0, ..., N - 1, freeing each of them once, in any order, brings the allocator
back to its initial state with no id in use, and the next allocation returns
0 again. -/
theorem allocator_reuse_law (n : Nat) (order : List Nat)
    (horder : order.Perm (alloc_n n _dbus_data_slot_allocator_init).1) :
    (alloc_n n _dbus_data_slot_allocator_init).1 = List.range' 0 n ∧
    free_all (alloc_n n _dbus_data_slot_allocator_init).2 order =
      _dbus_data_slot_allocator_init ∧
    (_dbus_data_slot_allocator_alloc
      (free_all (alloc_n n _dbus_data_slot_allocator_init).2 order)).1 = 0 := by
  have h := alloc_n_range n 0
  simp only [List.range_zero, List.map_nil, Nat.zero_add] at h
  have hinit : _dbus_data_slot_allocator_init = ⟨[]⟩ := rfl
  rw [hinit, h] at horder ⊢
  simp only at horder ⊢
  have hfree : free_all ⟨(List.range n).map fun i => (i, 1)⟩ order = ⟨[]⟩ := by
    rw [free_all_of_count_one]
    have hnil : (List.range n).filter (fun i => decide (i ∉ order)) = [] := by
      rw [List.filter_eq_nil_iff]
      intro a ha
      have hmem : a ∈ List.range' 0 n := by
        rw [List.range'_eq_map_range]
        simpa using ha
      have := horder.symm.subset hmem
      simpa using this
    rw [hnil]
    rfl
  refine ⟨trivial, hfree, ?_⟩
  rw [hfree]
  rfl

/-- C23, at three ids freed in the order 1, 0, 2. -/
theorem allocator_reuse_law_witness :
    free_all (alloc_n 3 _dbus_data_slot_allocator_init).2 [1, 0, 2] =
      _dbus_data_slot_allocator_init ∧
    (_dbus_data_slot_allocator_alloc
      (free_all (alloc_n 3 _dbus_data_slot_allocator_init).2 [1, 0, 2])).1 = 0 :=
  (allocator_reuse_law 3 [1, 0, 2] (by decide)).2

/-! ### `_dbus_read` -/

theorem store_bytes_take_start (cur : List Nat) (start : Nat) (d : List Nat)
    (h : start ≤ cur.length) : (store_bytes cur start d).take start = cur.take start := by
  unfold store_bytes
  have hl : (cur.take start).length = start := by simp [h]
  rw [List.append_assoc]
  exact List.take_left' hl

theorem store_bytes_take_data (cur : List Nat) (start : Nat) (d : List Nat)
    (h : start ≤ cur.length) :
    (store_bytes cur start d).take (start + d.length) = cur.take start ++ d := by
  unfold store_bytes
  have hl : (cur.take start ++ d).length = start + d.length := by simp [h]
  exact List.take_left' hl

theorem dbus_read_again_skips_interrupted (fd : Int) (buffer : List Nat) (count : Int)
    (r : ReadResult) (rest : List ReadResult) (hr : ¬ (r.ret < 0 ∧ r.errno = EINTR)) :
    ∀ (pre : List ReadResult) (cur : List Nat),
      (∀ p ∈ pre, p.ret < 0 ∧ p.errno = EINTR) → cur.take buffer.length = buffer →
      ((_dbus_read_again fd buffer.length count (pre ++ r :: rest) cur).ret =
          if r.ret < 0 then -1 else r.ret) ∧
      ((_dbus_read_again fd buffer.length count (pre ++ r :: rest) cur).errno =
          if r.ret < 0 then some r.errno else none) ∧
      (r.ret < 0 →
        (_dbus_read_again fd buffer.length count (pre ++ r :: rest) cur).buffer = buffer) ∧
      (0 ≤ r.ret → (r.data.length : Int) = r.ret →
        (_dbus_read_again fd buffer.length count (pre ++ r :: rest) cur).buffer =
          buffer ++ r.data) ∧
      (_dbus_read_again fd buffer.length count (pre ++ r :: rest) cur).calls =
        (pre ++ [r]).map fun x => Syscall.read fd buffer.length count.toNat x.ret := by
  intro pre
  induction pre with
  | nil =>
    intro cur _ hcur
    have hle : buffer.length ≤ cur.length := by
      have := congrArg List.length hcur
      simp only [List.length_take] at this
      omega
    simp only [List.nil_append, _dbus_read_again, List.map_cons, List.map_nil]
    by_cases h1 : r.ret < 0
    · have h2 : ¬ r.errno = EINTR := fun h => hr ⟨h1, h⟩
      simp only [h1, h2, if_true, if_false, true_and, and_true]
      refine ⟨?_, ?_⟩
      · intro _
        rw [store_bytes_take_start cur _ _ hle, hcur]
      · intro h0; omega
    · simp only [h1, if_false, true_and, and_true]
      refine ⟨?_, ?_⟩
      · intro h0; exact h0.elim
      · intro h0 hd
        have e : r.ret.toNat = r.data.length := by omega
        rw [e, store_bytes_take_data cur _ _ hle, hcur]
  | cons p ps ih =>
    intro cur hpre hcur
    have hle : buffer.length ≤ cur.length := by
      have := congrArg List.length hcur
      simp only [List.length_take] at this
      omega
    have hp := hpre p (List.mem_cons_self _ _)
    have ih' := ih (store_bytes cur buffer.length p.data)
      (fun q hq => hpre q (List.mem_cons_of_mem _ hq))
      (by rw [store_bytes_take_start cur _ _ hle, hcur])
    simp only [List.cons_append, _dbus_read_again, hp.1, hp.2, if_true, List.map_cons,
      List.append_eq]
    exact ⟨ih'.1, ih'.2.1, ih'.2.2.1, ih'.2.2.2.1,
      congrArg (List.cons (Syscall.read fd buffer.length count.toNat p.ret)) ih'.2.2.2.2⟩

/-- C24: for a buffer of length L and `count >= 0`, `_dbus_read` skips the reads
interrupted by a signal; when the first other read returns `n >= 0` bytes it
returns n and the buffer is its former contents followed by the n bytes read
(length L + n); when that read fails it returns -1 with the `errno` of the
read and the buffer is as before; and when the buffer cannot be lengthened it
returns -1 with `ENOMEM`, without a read, the buffer being as before. -/
theorem dbus_read_appends_or_restores (fd : Int) (buffer : List Nat) (count : Int) (fill : Nat)
    (pre : List ReadResult) (r : ReadResult) (rest : List ReadResult)
    (_hcount : 0 ≤ count) (hpre : ∀ p ∈ pre, p.ret < 0 ∧ p.errno = EINTR)
    (hr : ¬ (r.ret < 0 ∧ r.errno = EINTR)) :
    (0 ≤ r.ret → r.ret ≤ count → (r.data.length : Int) = r.ret →
      (_dbus_read fd buffer count true fill (pre ++ r :: rest)).ret = r.ret ∧
      (_dbus_read fd buffer count true fill (pre ++ r :: rest)).buffer = buffer ++ r.data ∧
      ((_dbus_read fd buffer count true fill (pre ++ r :: rest)).buffer.length : Int) =
        buffer.length + r.ret) ∧
    (r.ret < 0 →
      (_dbus_read fd buffer count true fill (pre ++ r :: rest)).ret = -1 ∧
      (_dbus_read fd buffer count true fill (pre ++ r :: rest)).errno = some r.errno ∧
      (_dbus_read fd buffer count true fill (pre ++ r :: rest)).buffer = buffer) ∧
    (_dbus_read fd buffer count false fill (pre ++ r :: rest) =
      { ret := -1, errno := some ENOMEM, buffer := buffer, calls := [] }) := by
  have h := dbus_read_again_skips_interrupted fd buffer count r rest hr pre
    (buffer ++ List.replicate count.toNat fill) hpre (by simp)
  refine ⟨?_, ?_, ?_⟩
  · intro h0 _ hd
    have h1 : ¬ r.ret < 0 := by omega
    simp only [_dbus_read, not_true_eq_false, if_false]
    rw [h.1, h.2.2.2.1 h0 hd]
    simp only [h1, if_false, List.length_append, Nat.cast_add, hd, and_self]
  · intro h0
    simp only [_dbus_read, not_true_eq_false, if_false]
    rw [h.1, h.2.1, h.2.2.1 h0]
    simp only [h0, if_true, and_self]
  · simp [_dbus_read]

/-- C24, at a buffer of two bytes, an interrupted read and a read of two of the
four bytes asked for. -/
theorem dbus_read_appends_or_restores_witness :
    (_dbus_read 3 [1, 2] 4 true 0 [⟨-1, EINTR, []⟩, ⟨2, 0, [7, 8]⟩]).ret = 2 ∧
    (_dbus_read 3 [1, 2] 4 true 0 [⟨-1, EINTR, []⟩, ⟨2, 0, [7, 8]⟩]).buffer = [1, 2, 7, 8] ∧
    ((_dbus_read 3 [1, 2] 4 true 0 [⟨-1, EINTR, []⟩, ⟨2, 0, [7, 8]⟩]).buffer.length : Int) =
      ([1, 2] : List Nat).length + 2 :=
  (dbus_read_appends_or_restores 3 [1, 2] 4 0 [⟨-1, EINTR, []⟩] ⟨2, 0, [7, 8]⟩ []
    (by decide) (by decide) (by decide)).1 (by decide) (by decide) (by decide)

/-! ### `_dbus_concat_dir_and_file` -/

/-- C25, refuted as stated: for the empty directory and the file name "foo",
`_dbus_concat_dir_and_file` returns TRUE and leaves the directory empty, which
does not end with "foo". -/
theorem concat_empty_dir_appends_nothing :
    _dbus_concat_dir_and_file [] [102, 111, 111] true true = (true, []) ∧
    ¬ ([102, 111, 111] <:+ (_dbus_concat_dir_and_file [] [102, 111, 111] true true).2) := by
  refine ⟨by decide, ?_⟩
  have e : (_dbus_concat_dir_and_file [] [102, 111, 111] true true).2 = [] := by decide
  rw [e]
  simp

/-- The four ways `_dbus_concat_dir_and_file` joins a non-empty directory
`ds ++ [a]` and a non-empty file name `b :: bs`. -/
theorem concat_dir_and_file_cases (ds : List Nat) (a b : Nat) (bs : List Nat)
    (append_ok copy_ok : Bool)
    (hret : (_dbus_concat_dir_and_file (ds ++ [a]) (b :: bs) append_ok copy_ok).1 = true) :
    (_dbus_concat_dir_and_file (ds ++ [a]) (b :: bs) append_ok copy_ok).2 =
      if a = 47 ∧ b = 47 then ds ++ b :: bs
      else if ¬ a = 47 ∧ ¬ b = 47 then ds ++ [a] ++ [47] ++ b :: bs
      else ds ++ [a] ++ b :: bs := by
  have hlen : ¬ ((ds ++ [a]).length = 0 ∨ (b :: bs).length = 0) := by simp
  have hlast : (ds ++ [a]).getD ((ds ++ [a]).length - 1) 0 = a := by
    simp [List.getD_eq_getElem?_getD]
  have hhead : (b :: bs).getD 0 0 = b := by simp
  have htake : (ds ++ [a]).take ((ds ++ [a]).length - 1) = ds := by simp
  simp only [_dbus_concat_dir_and_file, hlen, if_false, hlast, hhead, htake,
    decide_eq_true_eq] at hret ⊢
  have ha' : (47 = a) ↔ (a = 47) := eq_comm
  have hb' : (47 = b) ↔ (b = 47) := eq_comm
  simp only [ha', hb'] at hret ⊢
  by_cases ha : a = 47 <;> by_cases hb : b = 47 <;> cases append_ok <;> cases copy_ok <;>
    simp_all

/-- C25, amended: for every non-empty directory and every file name, when
`_dbus_concat_dir_and_file` returns TRUE the resulting directory ends with the
file name; for an empty directory it returns TRUE and appends nothing. -/
theorem concat_dir_and_file_suffix (dir next_component : List Nat)
    (append_ok copy_ok : Bool) (hdir : dir ≠ [])
    (hret : (_dbus_concat_dir_and_file dir next_component append_ok copy_ok).1 = true) :
    next_component <:+ (_dbus_concat_dir_and_file dir next_component append_ok copy_ok).2 ∧
    _dbus_concat_dir_and_file [] next_component append_ok copy_ok = (true, []) := by
  refine ⟨?_, by simp [_dbus_concat_dir_and_file]⟩
  cases next_component with
  | nil => simp
  | cons b bs =>
    rcases List.eq_nil_or_concat dir with h | ⟨ds, a, h⟩
    · exact absurd h hdir
    · rw [List.concat_eq_append] at h
      subst h
      rw [concat_dir_and_file_cases ds a b bs append_ok copy_ok hret]
      split_ifs
      · exact List.suffix_append _ _
      · exact List.suffix_append _ _
      · exact List.suffix_append _ _

/-- C25 amended, at the directory "a/" and the file name "/b". -/
theorem concat_dir_and_file_suffix_witness :
    [47, 98] <:+ (_dbus_concat_dir_and_file [97, 47] [47, 98] true true).2 :=
  (concat_dir_and_file_suffix [97, 47] [47, 98] true true (by decide) (by decide)).1

/-- C30: for a non-empty directory and a non-empty file name, a successful
`_dbus_concat_dir_and_file` leaves the directory equal to `d' ++ "/" ++ f'`, d'
being the old directory without one trailing slash (if it had one) and f' the
file name without one leading slash (if it had one); if either argument is
empty it returns TRUE and leaves the directory unchanged. -/
theorem concat_dir_and_file_joins_with_one_slash (dir next_component : List Nat)
    (append_ok copy_ok : Bool) :
    (dir ≠ [] → next_component ≠ [] →
      (_dbus_concat_dir_and_file dir next_component append_ok copy_ok).1 = true →
      (_dbus_concat_dir_and_file dir next_component append_ok copy_ok).2 =
        without_trailing_slash dir ++ [47] ++ without_leading_slash next_component) ∧
    (dir = [] ∨ next_component = [] →
      _dbus_concat_dir_and_file dir next_component append_ok copy_ok = (true, dir)) := by
  refine ⟨?_, ?_⟩
  · intro hdir hnext hret
    cases next_component with
    | nil => exact absurd rfl hnext
    | cons b bs =>
      rcases List.eq_nil_or_concat dir with h | ⟨ds, a, h⟩
      · exact absurd h hdir
      · rw [List.concat_eq_append] at h
        subst h
        rw [concat_dir_and_file_cases ds a b bs append_ok copy_ok hret]
        by_cases ha : a = 47 <;> by_cases hb : b = 47 <;>
          simp [without_trailing_slash, without_leading_slash, ha, hb]
  · intro h
    rcases h with h | h <;> subst h <;> simp [_dbus_concat_dir_and_file]

/-- C30, at "a/" joined with "/b", "a" with "b", and "a" with the empty name. -/
theorem concat_dir_and_file_joins_with_one_slash_witness :
    (_dbus_concat_dir_and_file [97, 47] [47, 98] true true).2 = [97, 47, 98] ∧
    (_dbus_concat_dir_and_file [97] [98] true true).2 = [97, 47, 98] ∧
    _dbus_concat_dir_and_file [97] [] true true = (true, [97]) :=
  ⟨(concat_dir_and_file_joins_with_one_slash [97, 47] [47, 98] true true).1
      (by decide) (by decide) (by decide),
    (concat_dir_and_file_joins_with_one_slash [97] [98] true true).1
      (by decide) (by decide) (by decide),
    (concat_dir_and_file_joins_with_one_slash [97] [] true true).2 (Or.inr rfl)⟩

/-! ### Credentials from a UID string -/

/-- C26, refuted as stated: for the string "-5", which `strtol` parses whole as
-5, `_dbus_credentials_from_uid_string` returns TRUE and leaves the uid -5,
which is neither non-negative nor -1. -/
theorem credentials_from_uid_string_negative :
    _dbus_credentials_from_uid_string [45, 53] ⟨-5, 2, 0⟩ = (true, ⟨-1, -5, -1⟩) ∧
    ¬ (0 ≤ (_dbus_credentials_from_uid_string [45, 53] ⟨-5, 2, 0⟩).2.uid ∨
      (_dbus_credentials_from_uid_string [45, 53] ⟨-5, 2, 0⟩).2.uid = -1) := by
  refine ⟨by decide, by decide⟩

/-- C26, amended: for every input string and every outcome of `strtol`, the
credentials `_dbus_credentials_from_uid_string` leaves have pid and gid exactly
-1; the uid is exactly -1 on failure, and on success it is the number parsed
from the whole string, converted to `int`, whatever its sign. -/
theorem credentials_from_uid_string_fields (uid_str : List Nat) (strtol : StrtolResult) :
    (_dbus_credentials_from_uid_string uid_str strtol).2.pid = -1 ∧
    (_dbus_credentials_from_uid_string uid_str strtol).2.gid = -1 ∧
    ((_dbus_credentials_from_uid_string uid_str strtol).1 = false →
      (_dbus_credentials_from_uid_string uid_str strtol).2.uid = -1) ∧
    ((_dbus_credentials_from_uid_string uid_str strtol).1 = true →
      (_dbus_credentials_from_uid_string uid_str strtol).2.uid = long_to_int strtol.value ∧
      uid_str ≠ [] ∧ strtol.consumed = uid_str.length ∧ strtol.errno = 0) := by
  by_cases h1 : uid_str.length = 0
  · simp [_dbus_credentials_from_uid_string, h1]
  · by_cases h2 : strtol.consumed = 0 ∨ strtol.errno ≠ 0
    · have hp : _dbus_string_parse_int 0 strtol = (false, none, none) := by
        unfold _dbus_string_parse_int
        rw [if_pos h2]
      simp [_dbus_credentials_from_uid_string, h1, hp]
    · have hp : _dbus_string_parse_int 0 strtol =
          (true, some strtol.value, some (0 + strtol.consumed)) := by
        unfold _dbus_string_parse_int
        rw [if_neg h2]
      have h2' := h2
      push_neg at h2'
      have hne : uid_str ≠ [] := fun h => h1 (by simp [h])
      by_cases h3 : strtol.consumed = uid_str.length
      · simp [_dbus_credentials_from_uid_string, h1, hp, h3, hne, h2'.2]
      · simp [_dbus_credentials_from_uid_string, h1, hp, h3]

/-! ### Credentials after a failed handshake -/

/-- C27: whenever `_dbus_read_credentials_unix_socket` returns FALSE (failed
set-up, receive error, non-zero byte, or missing ancillary credentials), the
credentials it leaves are pid = uid = gid = -1. -/
theorem read_credentials_failure_leaves_unknown (cfg : CredConfig) (client_fd : Int)
    (env : ReadCredEnv)
    (hret : (_dbus_read_credentials_unix_socket cfg client_fd env).ret = false) :
    (_dbus_read_credentials_unix_socket cfg client_fd env).credentials = ⟨-1, -1, -1⟩ := by
  unfold _dbus_read_credentials_unix_socket at hret ⊢
  simp only at hret ⊢
  split_ifs at hret ⊢ <;> rfl

/-- C27, at a receive that fails with `ECONNREFUSED`. -/
theorem read_credentials_failure_leaves_unknown_witness :
    (_dbus_read_credentials_unix_socket cfg_peercred 7
        (read_cred_env [⟨-1, ECONNREFUSED, none, 0, 0, ⟨-1, -1, -1⟩⟩] 0)).credentials =
      ⟨-1, -1, -1⟩ :=
  read_credentials_failure_leaves_unknown cfg_peercred 7
    (read_cred_env [⟨-1, ECONNREFUSED, none, 0, 0, ⟨-1, -1, -1⟩⟩] 0) (by decide)

/-! ### Error names -/

/-- C29: for every error number other than 0, `_dbus_error_from_errno` gives the
error name of the same kind as the result code of `_dbus_result_from_errno`;
at 0 the result code is Success, which has no error name, and the error name
is Failed. -/
theorem error_from_errno_same_kind (e : Int) :
    (e ≠ 0 →
      some (_dbus_error_from_errno e) = error_name_of_kind (_dbus_result_from_errno e)) ∧
    _dbus_result_from_errno 0 = DBusResultCode.DBUS_RESULT_SUCCESS ∧
    _dbus_error_from_errno 0 = DBusErrorName.DBUS_ERROR_FAILED ∧
    some (_dbus_error_from_errno 0) ≠ error_name_of_kind (_dbus_result_from_errno 0) := by
  refine ⟨?_, by decide, by decide, by decide⟩
  · intro h0
    by_cases h1 : e = EPROTONOSUPPORT
    · subst h1; decide
    by_cases h2 : e = EAFNOSUPPORT
    · subst h2; decide
    by_cases h3 : e = ENFILE
    · subst h3; decide
    by_cases h4 : e = EMFILE
    · subst h4; decide
    by_cases h5 : e = EACCES
    · subst h5; decide
    by_cases h6 : e = EPERM
    · subst h6; decide
    by_cases h7 : e = ENOBUFS
    · subst h7; decide
    by_cases h8 : e = ENOMEM
    · subst h8; decide
    by_cases h9 : e = EINVAL
    · subst h9; decide
    by_cases h10 : e = EBADF
    · subst h10; decide
    by_cases h11 : e = EFAULT
    · subst h11; decide
    by_cases h12 : e = ENOTSOCK
    · subst h12; decide
    by_cases h13 : e = EISCONN
    · subst h13; decide
    by_cases h14 : e = ECONNREFUSED
    · subst h14; decide
    by_cases h15 : e = ETIMEDOUT
    · subst h15; decide
    by_cases h16 : e = ENETUNREACH
    · subst h16; decide
    by_cases h17 : e = EADDRINUSE
    · subst h17; decide
    by_cases h18 : e = EEXIST
    · subst h18; decide
    by_cases h19 : e = ENOENT
    · subst h19; decide
    simp only [_dbus_result_from_errno, _dbus_error_from_errno, h0, h1, h2, h3, h4, h5, h6,
      h7, h8, h9, h10, h11, h12, h13, h14, h15, h16, h17, h18, h19, if_false]
    rfl

/-- C29, at `EMFILE` and `ENOENT`. -/
theorem error_from_errno_same_kind_witness :
    some (_dbus_error_from_errno EMFILE) =
      error_name_of_kind (_dbus_result_from_errno EMFILE) ∧
    some (_dbus_error_from_errno ENOENT) =
      error_name_of_kind (_dbus_result_from_errno ENOENT) :=
  ⟨(error_from_errno_same_kind EMFILE).1 (by decide),
    (error_from_errno_same_kind ENOENT).1 (by decide)⟩

/-! ### `read_ints` with a buffer of any size -/

theorem read_ints_loop_bounds (w : Nat) (hw : 4 ≤ w) (fd : Int) (n : Nat)
    (hfit : 4 * n < 2 ^ w) :
    ∀ (reads : List ReadResult) (bytes : Nat) (buf : List Nat), bytes ≤ 4 * n →
      (∀ c ∈ (read_ints_loop w fd (n : Int) reads bytes buf).calls, read_in_range c = true) →
      (read_ints_loop w fd (n : Int) reads bytes buf).ret = true ∧
      (read_ints_loop w fd (n : Int) reads bytes buf).calls.length + min bytes 8 ≤ 9 ∧
      (∀ c ∈ (read_ints_loop w fd (n : Int) reads bytes buf).calls,
        read_within_buffer (4 * n) c = true) ∧
      (read_ints_loop w fd (n : Int) reads bytes buf).n_ints_read =
        some (to_int ((bytes +
          bytes_received (read_ints_loop w fd (n : Int) reads bytes buf).calls) / 4)) ∧
      bytes + bytes_received (read_ints_loop w fd (n : Int) reads bytes buf).calls ≤ 4 * n := by
  have h16 : 16 ≤ 2 ^ w := sixteen_le_two_pow w hw
  have hfiti : (4 : Int) * (n : Int) < (2 : Int) ^ w := by exact_mod_cast hfit
  have hcount : ∀ bytes : Nat, bytes ≤ 4 * n →
      to_size_t w (((4 : Nat) : Int) * (n : Int) - (bytes : Int)) = 4 * n - bytes := by
    intro bytes hb
    rw [to_size_t_of_lt w _ (by push_cast; omega) (by push_cast; omega)]
    push_cast
    omega
  intro reads
  induction reads with
  | nil =>
    intro bytes buf hb _
    simp only [read_ints_loop, sizeof_int]
    split_ifs with h
    · simp [read_ints_done, sizeof_int, bytes_received]
      omega
    · rw [hcount bytes hb]
      simp [read_ints_done, sizeof_int, bytes_received, read_within_buffer]
      omega
  | cons r rs ih =>
    intro bytes buf hb hc
    simp only [read_ints_loop, sizeof_int] at hc ⊢
    by_cases h8 : bytes ≥ 4 * 2
    · simp only [h8, if_true]
      simp [read_ints_done, sizeof_int, bytes_received]
      omega
    · simp only [h8, if_false] at hc ⊢
      have hlt : ¬ (to_size_t w r.ret < 0) := Nat.not_lt_zero _
      simp only [hlt, false_and, if_false] at hc ⊢
      rw [hcount bytes hb] at hc ⊢
      by_cases h0 : to_size_t w r.ret = 0
      · simp only [h0, if_true] at hc ⊢
        have hr := hc _ (List.mem_singleton.mpr rfl)
        simp only [read_in_range, decide_eq_true_eq] at hr
        have hret : r.ret = 0 := by
          rw [to_size_t_of_lt w _ hr.1 (by omega)] at h0
          omega
        simp [read_ints_done, sizeof_int, bytes_received, read_within_buffer, hret]
        omega
      · simp only [h0, if_false] at hc ⊢
        have hr := hc _ (List.mem_cons_self _ _)
        simp only [read_in_range, decide_eq_true_eq] at hr
        have hch : to_size_t w r.ret = r.ret.toNat := to_size_t_of_lt w _ hr.1 (by omega)
        rw [hch] at h0 hc ⊢
        have hmod : (bytes + r.ret.toNat) % 2 ^ w = bytes + r.ret.toNat :=
          Nat.mod_eq_of_lt (by omega)
        rw [hmod] at hc ⊢
        have hrec := ih (bytes + r.ret.toNat) (store_bytes buf bytes r.data) (by omega)
          (fun c hcm => hc c (List.mem_cons_of_mem _ hcm))
        obtain ⟨i1, i2, i3, i4, i5⟩ := hrec
        refine ⟨i1, ?_, ?_, ?_, ?_⟩
        · simp only [List.length_cons]
          omega
        · intro c hcm
          rcases List.mem_cons.mp hcm with hcm | hcm
          · subst hcm
            simp only [read_within_buffer, decide_eq_true_eq]
            omega
          · exact i3 c hcm
        · simp only [bytes_received]
          rw [i4]
          congr 3
          omega
        · simp only [bytes_received]
          omega

/-- C28: for a buffer of `n_ints_in_buf >= 0` ints that fits the address space,
if every read returns 0 or a count between 1 and the number of bytes
requested, `read_ints` returns after at most `2 * sizeof (int) + 1` reads
whatever the number of outcomes on offer, never asks for bytes past the end of
the buffer, and stores `n_ints_read = bytes received / sizeof (int)`, which
lies between 0 and `n_ints_in_buf`. -/
theorem read_ints_bounds (w : Nat) (hw : 4 ≤ w) (fd : Int) (buf : List Nat)
    (n_ints_in_buf : Nat) (reads : List ReadResult)
    (hint : n_ints_in_buf < 2 ^ 31) (hfit : sizeof_int * n_ints_in_buf < 2 ^ w)
    (hreads : ∀ c ∈ (read_ints w fd buf (n_ints_in_buf : Int) reads).calls,
      read_in_range c = true) :
    (read_ints w fd buf (n_ints_in_buf : Int) reads).ret = true ∧
    (read_ints w fd buf (n_ints_in_buf : Int) reads).calls.length ≤ 2 * sizeof_int + 1 ∧
    (∀ c ∈ (read_ints w fd buf (n_ints_in_buf : Int) reads).calls,
      read_within_buffer (sizeof_int * n_ints_in_buf) c = true) ∧
    (read_ints w fd buf (n_ints_in_buf : Int) reads).n_ints_read =
      some (((bytes_received (read_ints w fd buf (n_ints_in_buf : Int) reads).calls /
        sizeof_int : Nat) : Int)) ∧
    bytes_received (read_ints w fd buf (n_ints_in_buf : Int) reads).calls / sizeof_int ≤
      n_ints_in_buf := by
  unfold read_ints at hreads ⊢
  simp only [sizeof_int] at hfit ⊢
  obtain ⟨i1, i2, i3, i4, i5⟩ :=
    read_ints_loop_bounds w hw fd n_ints_in_buf hfit reads 0 buf (Nat.zero_le _) hreads
  simp only [Nat.zero_add] at i4 i5
  refine ⟨i1, by omega, i3, ?_, by omega⟩
  rw [i4, to_int_small _ (by omega)]

/-- C28, at the two-int buffer and a record that arrives in reads of 3, 4 and 1
bytes, two more outcomes being on offer. -/
theorem read_ints_bounds_witness :
    (read_ints 64 3 (List.replicate 8 0) ((2 : Nat) : Int)
        [⟨3, 0, [1, 0, 0]⟩, ⟨4, 0, [0, 2, 0, 0]⟩, ⟨1, 0, [0]⟩, ⟨4, 0, [9, 9, 9, 9]⟩,
          ⟨0, 0, []⟩]).n_ints_read =
      some (((bytes_received (read_ints 64 3 (List.replicate 8 0) ((2 : Nat) : Int)
        [⟨3, 0, [1, 0, 0]⟩, ⟨4, 0, [0, 2, 0, 0]⟩, ⟨1, 0, [0]⟩, ⟨4, 0, [9, 9, 9, 9]⟩,
          ⟨0, 0, []⟩]).calls / sizeof_int : Nat) : Int)) ∧
    bytes_received (read_ints 64 3 (List.replicate 8 0) ((2 : Nat) : Int)
        [⟨3, 0, [1, 0, 0]⟩, ⟨4, 0, [0, 2, 0, 0]⟩, ⟨1, 0, [0]⟩, ⟨4, 0, [9, 9, 9, 9]⟩,
          ⟨0, 0, []⟩]).calls / sizeof_int ≤ 2 :=
  (read_ints_bounds 64 (by decide) 3 (List.replicate 8 0) 2
    [⟨3, 0, [1, 0, 0]⟩, ⟨4, 0, [0, 2, 0, 0]⟩, ⟨1, 0, [0]⟩, ⟨4, 0, [9, 9, 9, 9]⟩, ⟨0, 0, []⟩]
    (by decide) (by decide) (by decide)).2.2.2

end DBus
